import Mathlib

/-!
Verification development for the material-color-utilities TypeScript library.

The definitions below are a shallow embedding of the relevant source files
(`src/utils/math_utils.ts`, `src/utils/color_utils.ts`,
`src/hct/viewing_conditions.ts`, `src/hct/cam16.ts`, `src/hct/hct_solver.ts`,
`src/hct/hct.ts`, `src/contrast/contrast.ts`, `src/palettes/tonal_palette.ts`,
`src/dynamiccolor/*.ts`, `src/quantize/*.ts`).  JavaScript numbers are
modelled as real numbers (`ℝ`): every arithmetic step of the source is kept,
but IEEE rounding is idealised away.  ARGB colors are modelled as natural
numbers below `2^32`, with the JS bitwise operators translated to `Nat`
bitwise operators (all the colors manipulated here are non-negative 32-bit
patterns, on which JS `>>`/`>>>`/`&`/`|` agree with the `Nat` operators once
the 8-bit masks of the source are applied).  `Math.random()` is modelled as
an explicit stream of real numbers in `[0, 1)` passed as an argument.
-/

noncomputable section

open Classical Real

namespace MCU

/-! ## src/utils/math_utils.ts -/

/-- `signum` from math_utils.ts. -/
def signum (num : ℝ) : ℝ :=
  if num < 0 then -1 else if num = 0 then 0 else 1

/-- `lerp` from math_utils.ts. -/
def lerp (start stop amount : ℝ) : ℝ :=
  (1 - amount) * start + amount * stop

/-- `clampInt` from math_utils.ts. -/
def clampInt (min max input : ℤ) : ℤ :=
  if input < min then min else if input > max then max else input

/-- `clampDouble` from math_utils.ts. -/
def clampDouble (min max input : ℝ) : ℝ :=
  if input < min then min else if input > max then max else input

/-- JavaScript truncation toward zero, used by the JS `%` operator. -/
def jsTrunc (x : ℝ) : ℤ :=
  if 0 ≤ x then ⌊x⌋ else ⌈x⌉

/-- The JavaScript remainder operator `a % b`: `a - b * trunc(a / b)`,
so the result carries the sign of the dividend `a`. -/
def jsMod (a b : ℝ) : ℝ :=
  a - b * (jsTrunc (a / b) : ℝ)

/-- JavaScript `Math.round`: round half toward positive infinity. -/
def jsRound (x : ℝ) : ℤ :=
  ⌊x + 1 / 2⌋

/-- `sanitizeDegreesDouble` from math_utils.ts (`degrees % 360`, then
adding `360` when negative). -/
def sanitizeDegreesDouble (degrees : ℝ) : ℝ :=
  let d := jsMod degrees 360
  if d < 0 then d + 360 else d

/-- `sanitizeDegreesInt` from math_utils.ts (same code, used on integers). -/
def sanitizeDegreesInt (degrees : ℤ) : ℤ :=
  let d := degrees % 360
  if d < 0 then d + 360 else d

/-- Row vector times 3x3 matrix, `matrixMultiply` from math_utils.ts. -/
def matrixMultiply (row : ℝ × ℝ × ℝ) (m : (ℝ × ℝ × ℝ) × (ℝ × ℝ × ℝ) × (ℝ × ℝ × ℝ)) :
    ℝ × ℝ × ℝ :=
  (row.1 * m.1.1 + row.2.1 * m.1.2.1 + row.2.2 * m.1.2.2,
   row.1 * m.2.1.1 + row.2.1 * m.2.1.2.1 + row.2.2 * m.2.1.2.2,
   row.1 * m.2.2.1 + row.2.1 * m.2.2.2.1 + row.2.2 * m.2.2.2.2)

/-! ## src/utils/color_utils.ts -/

/-- `linearized` from color_utils.ts. -/
def linearized (rgbComponent : ℝ) : ℝ :=
  let normalized := rgbComponent / 255
  if normalized ≤ 0.040449936 then normalized / 12.92 * 100
  else ((normalized + 0.055) / 1.055) ^ (2.4 : ℝ) * 100

/-- `delinearized` from color_utils.ts: linear channel in `[0,100]` to an
8-bit channel, rounded and clamped to `[0,255]`. -/
def delinearized (rgbComponent : ℝ) : ℕ :=
  let normalized := rgbComponent / 100
  let d : ℝ :=
    if normalized ≤ 0.0031308 then normalized * 12.92
    else 1.055 * normalized ^ ((1 : ℝ) / 2.4) - 0.055
  (clampInt 0 255 (jsRound (d * 255))).toNat

/-- `argbFromRgb` from color_utils.ts (`255 << 24 | (r & 255) << 16 |
(g & 255) << 8 | b & 255`, taken `>>> 0`). -/
def argbFromRgb (red green blue : ℕ) : ℕ :=
  255 <<< 24 ||| ((red &&& 255) <<< 16) ||| ((green &&& 255) <<< 8) ||| (blue &&& 255)

/-- `alphaFromArgb` from color_utils.ts (`argb >> 24 & 255`). -/
def alphaFromArgb (argb : ℕ) : ℕ :=
  (argb >>> 24) &&& 255

/-- `redFromArgb` from color_utils.ts (`argb >> 16 & 255`). -/
def redFromArgb (argb : ℕ) : ℕ :=
  (argb >>> 16) &&& 255

/-- `greenFromArgb` from color_utils.ts (`argb >> 8 & 255`). -/
def greenFromArgb (argb : ℕ) : ℕ :=
  (argb >>> 8) &&& 255

/-- `blueFromArgb` from color_utils.ts (`argb & 255`). -/
def blueFromArgb (argb : ℕ) : ℕ :=
  argb &&& 255

/-- `isOpaque` from color_utils.ts. -/
def isOpaque (argb : ℕ) : Bool :=
  255 ≤ alphaFromArgb argb

/-- `argbFromLinrgb` from color_utils.ts. -/
def argbFromLinrgb (linrgb : ℝ × ℝ × ℝ) : ℕ :=
  argbFromRgb (delinearized linrgb.1) (delinearized linrgb.2.1) (delinearized linrgb.2.2)

/-- The `SRGB_TO_XYZ` matrix from color_utils.ts. -/
def SRGB_TO_XYZ : (ℝ × ℝ × ℝ) × (ℝ × ℝ × ℝ) × (ℝ × ℝ × ℝ) :=
  ((0.41233895, 0.35762064, 0.18051042),
   (0.2126, 0.7152, 0.0722),
   (0.01932141, 0.11916382, 0.95034478))

/-- The `XYZ_TO_SRGB` matrix from color_utils.ts. -/
def XYZ_TO_SRGB : (ℝ × ℝ × ℝ) × (ℝ × ℝ × ℝ) × (ℝ × ℝ × ℝ) :=
  ((3.2413774792388685, -1.5376652402851851, -0.49885366846268053),
   (-0.9691452513005321, 1.8758853451067872, 0.04156585616912061),
   (0.05562093689691305, -0.20395524564742123, 1.0571799111220335))

/-- `WHITE_POINT_D65` from color_utils.ts. -/
def WHITE_POINT_D65 : ℝ × ℝ × ℝ :=
  (95.047, 100, 108.883)

/-- `argbFromXyz` from color_utils.ts. -/
def argbFromXyz (x y z : ℝ) : ℕ :=
  let linearR := 3.2413774792388685 * x + -1.5376652402851851 * y + -0.49885366846268053 * z
  let linearG := -0.9691452513005321 * x + 1.8758853451067872 * y + 0.04156585616912061 * z
  let linearB := 0.05562093689691305 * x + -0.20395524564742123 * y + 1.0571799111220335 * z
  argbFromRgb (delinearized linearR) (delinearized linearG) (delinearized linearB)

/-- `xyzFromArgb` from color_utils.ts. -/
def xyzFromArgb (argb : ℕ) : ℝ × ℝ × ℝ :=
  matrixMultiply
    (linearized (redFromArgb argb), linearized (greenFromArgb argb),
      linearized (blueFromArgb argb))
    SRGB_TO_XYZ

/-- `labF` from color_utils.ts. -/
def labF (t : ℝ) : ℝ :=
  let e : ℝ := 216 / 24389
  if t > e then t ^ ((1 : ℝ) / 3)
  else ((24389 / 27) * t + 16) / 116

/-- `labInvf` from color_utils.ts. -/
def labInvf (ft : ℝ) : ℝ :=
  let e : ℝ := 216 / 24389
  let ft3 := ft * ft * ft
  if ft3 > e then ft3
  else (116 * ft - 16) / (24389 / 27)

/-- `argbFromLab` from color_utils.ts. -/
def argbFromLab (l a b : ℝ) : ℕ :=
  let fy := (l + 16) / 116
  let fx := a / 500 + fy
  let fz := fy - b / 200
  let x := labInvf fx * 95.047
  let y := labInvf fy * 100
  let z := labInvf fz * 108.883
  argbFromXyz x y z

/-- `labFromArgb` from color_utils.ts. -/
def labFromArgb (argb : ℕ) : ℝ × ℝ × ℝ :=
  let linearR := linearized (redFromArgb argb)
  let linearG := linearized (greenFromArgb argb)
  let linearB := linearized (blueFromArgb argb)
  let x := 0.41233895 * linearR + 0.35762064 * linearG + 0.18051042 * linearB
  let y := 0.2126 * linearR + 0.7152 * linearG + 0.0722 * linearB
  let z := 0.01932141 * linearR + 0.11916382 * linearG + 0.95034478 * linearB
  let fx := labF (x / 95.047)
  let fy := labF (y / 100)
  let fz := labF (z / 108.883)
  (116 * fy - 16, 500 * (fx - fy), 200 * (fy - fz))

/-- `yFromLstar` from color_utils.ts. -/
def yFromLstar (lstar : ℝ) : ℝ :=
  100 * labInvf ((lstar + 16) / 116)

/-- `lstarFromY` from color_utils.ts. -/
def lstarFromY (y : ℝ) : ℝ :=
  labF (y / 100) * 116 - 16

/-- `argbFromLstar` from color_utils.ts. -/
def argbFromLstar (lstar : ℝ) : ℕ :=
  let component := delinearized (yFromLstar lstar)
  argbFromRgb component component component

/-- `lstarFromArgb` from color_utils.ts. -/
def lstarFromArgb (argb : ℕ) : ℝ :=
  116 * labF ((xyzFromArgb argb).2.1 / 100) - 16


/-! ## src/hct/viewing_conditions.ts -/

/-- JavaScript `Math.cbrt` (sign-preserving cube root). -/
def jsCbrt (x : ℝ) : ℝ :=
  if x < 0 then -((-x) ^ ((1 : ℝ) / 3)) else x ^ ((1 : ℝ) / 3)

/-- JavaScript `Math.atan2 y x`: the angle of the point `(x, y)` in
`(-pi, pi]`, which is exactly `Complex.arg`. -/
def jsAtan2 (y x : ℝ) : ℝ :=
  Complex.arg ⟨x, y⟩

/-- The precomputed coefficient bundle of `ViewingConditions`. -/
structure ViewingConditions where
  n : ℝ
  aw : ℝ
  nbb : ℝ
  ncb : ℝ
  c : ℝ
  nc : ℝ
  rgbD : ℝ × ℝ × ℝ
  fl : ℝ
  fLRoot : ℝ
  z : ℝ

/-- `ViewingConditions.make` from viewing_conditions.ts. -/
def ViewingConditions.make (whitePoint : ℝ × ℝ × ℝ) (adaptingLuminance backgroundLstar surround : ℝ)
    (discountingIlluminant : Bool) : ViewingConditions :=
  let rW := whitePoint.1 * 0.401288 + whitePoint.2.1 * 0.650173 + whitePoint.2.2 * -0.051461
  let gW := whitePoint.1 * -0.250268 + whitePoint.2.1 * 1.204414 + whitePoint.2.2 * 0.045854
  let bW := whitePoint.1 * -0.002079 + whitePoint.2.1 * 0.048952 + whitePoint.2.2 * 0.953127
  let f := 0.8 + surround / 10
  let c := if f ≥ 0.9 then lerp 0.59 0.69 ((f - 0.9) * 10) else lerp 0.525 0.59 ((f - 0.8) * 10)
  let d0 : ℝ :=
    if discountingIlluminant then 1
    else f * (1 - 1 / 3.6 * Real.exp ((-adaptingLuminance - 42) / 92))
  let d := if d0 > 1 then 1 else if d0 < 0 then 0 else d0
  let nc := f
  let rgbD : ℝ × ℝ × ℝ :=
    (d * (100 / rW) + 1 - d, d * (100 / gW) + 1 - d, d * (100 / bW) + 1 - d)
  let k := 1 / (5 * adaptingLuminance + 1)
  let k4 := k * k * k * k
  let k4F := 1 - k4
  let fl := k4 * adaptingLuminance + 0.1 * k4F * k4F * jsCbrt (5 * adaptingLuminance)
  let n := yFromLstar backgroundLstar / whitePoint.2.1
  let z := 1.48 + Real.sqrt n
  let nbb := 0.725 / n ^ (0.2 : ℝ)
  let ncb := nbb
  let rgbAFactors : ℝ × ℝ × ℝ :=
    ((fl * rgbD.1 * rW / 100) ^ (0.42 : ℝ),
     (fl * rgbD.2.1 * gW / 100) ^ (0.42 : ℝ),
     (fl * rgbD.2.2 * bW / 100) ^ (0.42 : ℝ))
  let rgbA : ℝ × ℝ × ℝ :=
    (400 * rgbAFactors.1 / (rgbAFactors.1 + 27.13),
     400 * rgbAFactors.2.1 / (rgbAFactors.2.1 + 27.13),
     400 * rgbAFactors.2.2 / (rgbAFactors.2.2 + 27.13))
  let aw := (2 * rgbA.1 + rgbA.2.1 + 0.05 * rgbA.2.2) * nbb
  ⟨n, aw, nbb, ncb, c, nc, rgbD, fl, fl ^ (0.25 : ℝ), z⟩

/-- `ViewingConditions.DEFAULT` (the `make()` defaults: D65 white point,
`200 / pi * yFromLstar(50) / 100` adapting luminance, background L* 50,
surround 2, no discounting). -/
def ViewingConditions.DEFAULT : ViewingConditions :=
  ViewingConditions.make WHITE_POINT_D65 (200 / π * yFromLstar 50 / 100) 50 2 false

/-! ## src/hct/cam16.ts -/

/-- The CAM16 value object; fields as in cam16.ts. -/
structure Cam16 where
  hue : ℝ
  chroma : ℝ
  j : ℝ
  q : ℝ
  m : ℝ
  s : ℝ
  jstar : ℝ
  astar : ℝ
  bstar : ℝ

/-- `Cam16.fromIntInViewingConditions` from cam16.ts. -/
def Cam16.fromIntInViewingConditions (argb : ℕ) (vc : ViewingConditions) : Cam16 :=
  let red := (argb &&& 16711680) >>> 16
  let green := (argb &&& 65280) >>> 8
  let blue := argb &&& 255
  let redL := linearized red
  let greenL := linearized green
  let blueL := linearized blue
  let x := 0.41233895 * redL + 0.35762064 * greenL + 0.18051042 * blueL
  let y := 0.2126 * redL + 0.7152 * greenL + 0.0722 * blueL
  let z := 0.01932141 * redL + 0.11916382 * greenL + 0.95034478 * blueL
  let rC := 0.401288 * x + 0.650173 * y - 0.051461 * z
  let gC := -0.250268 * x + 1.204414 * y + 0.045854 * z
  let bC := -0.002079 * x + 0.048952 * y + 0.953127 * z
  let rD := vc.rgbD.1 * rC
  let gD := vc.rgbD.2.1 * gC
  let bD := vc.rgbD.2.2 * bC
  let rAF := (vc.fl * |rD| / 100) ^ (0.42 : ℝ)
  let gAF := (vc.fl * |gD| / 100) ^ (0.42 : ℝ)
  let bAF := (vc.fl * |bD| / 100) ^ (0.42 : ℝ)
  let rA := signum rD * 400 * rAF / (rAF + 27.13)
  let gA := signum gD * 400 * gAF / (gAF + 27.13)
  let bA := signum bD * 400 * bAF / (bAF + 27.13)
  let a := (11 * rA + -12 * gA + bA) / 11
  let b := (rA + gA - 2 * bA) / 9
  let u := (20 * rA + 20 * gA + 21 * bA) / 20
  let p2 := (40 * rA + 20 * gA + bA) / 20
  let atanDegrees := jsAtan2 b a * 180 / π
  let hue :=
    if atanDegrees < 0 then atanDegrees + 360
    else if atanDegrees ≥ 360 then atanDegrees - 360 else atanDegrees
  let hueRadians := hue * π / 180
  let ac := p2 * vc.nbb
  let j := 100 * (ac / vc.aw) ^ (vc.c * vc.z)
  let q := 4 / vc.c * Real.sqrt (j / 100) * (vc.aw + 4) * vc.fLRoot
  let huePrime := if hue < 20.14 then hue + 360 else hue
  let eHue := 0.25 * (Real.cos (huePrime * π / 180 + 2) + 3.8)
  let p1 := 50000 / 13 * eHue * vc.nc * vc.ncb
  let t := p1 * Real.sqrt (a * a + b * b) / (u + 0.305)
  let alpha := t ^ (0.9 : ℝ) * (1.64 - (0.29 : ℝ) ^ vc.n) ^ (0.73 : ℝ)
  let chroma := alpha * Real.sqrt (j / 100)
  let m := chroma * vc.fLRoot
  let s := 50 * Real.sqrt (alpha * vc.c / (vc.aw + 4))
  let jstar := 1.7000000000000002 * j / (1 + 0.007 * j)
  let mstar := 1 / 0.0228 * Real.log (1 + 0.0228 * m)
  ⟨hue, chroma, j, q, m, s, jstar, mstar * Real.cos hueRadians, mstar * Real.sin hueRadians⟩

/-- `Cam16.fromInt` from cam16.ts. -/
def Cam16.fromInt (argb : ℕ) : Cam16 :=
  Cam16.fromIntInViewingConditions argb ViewingConditions.DEFAULT

/-! ## src/hct/hct_solver.ts -/

/-- `HctSolver.SCALED_DISCOUNT_FROM_LINRGB` from hct_solver.ts. -/
def SCALED_DISCOUNT_FROM_LINRGB : (ℝ × ℝ × ℝ) × (ℝ × ℝ × ℝ) × (ℝ × ℝ × ℝ) :=
  ((0.001200833568784504, 0.002389694492170889, 0.0002795742885861124),
   (0.0005891086651375999, 0.0029785502573438758, 0.0003270666104008398),
   (0.00010146692491640572, 0.0005364214359186694, 0.0032979401770712076))

/-- `HctSolver.LINRGB_FROM_SCALED_DISCOUNT` from hct_solver.ts. -/
def LINRGB_FROM_SCALED_DISCOUNT : (ℝ × ℝ × ℝ) × (ℝ × ℝ × ℝ) × (ℝ × ℝ × ℝ) :=
  ((1373.2198709594231, -1100.4251190754821, -7.278681089101213),
   (-271.815969077903, 559.6580465940733, -32.46047482791194),
   (1.9622899599665666, -57.173814538844006, 177.49835624334895))

/-- `HctSolver.Y_FROM_LINRGB` from hct_solver.ts. -/
def Y_FROM_LINRGB : ℝ × ℝ × ℝ :=
  (0.2126, 0.7152, 0.0722)

/-- `HctSolver.sanitizeRadians` from hct_solver.ts:
`(angle + Math.PI * 8) % (Math.PI * 2)`. -/
def sanitizeRadians (angle : ℝ) : ℝ :=
  jsMod (angle + π * 8) (π * 2)

/-- `HctSolver.trueDelinearized` from hct_solver.ts (no rounding). -/
def trueDelinearized (rgbComponent : ℝ) : ℝ :=
  let normalized := rgbComponent / 100
  let d : ℝ :=
    if normalized ≤ 0.0031308 then normalized * 12.92
    else 1.055 * normalized ^ ((1 : ℝ) / 2.4) - 0.055
  d * 255

/-- `HctSolver.chromaticAdaptation` from hct_solver.ts. -/
def chromaticAdaptation (component : ℝ) : ℝ :=
  let af := |component| ^ (0.42 : ℝ)
  signum component * 400 * af / (af + 27.13)

/-- `HctSolver.hueOf` from hct_solver.ts. -/
def hueOf (linrgb : ℝ × ℝ × ℝ) : ℝ :=
  let scaledDiscount := matrixMultiply linrgb SCALED_DISCOUNT_FROM_LINRGB
  let rA := chromaticAdaptation scaledDiscount.1
  let gA := chromaticAdaptation scaledDiscount.2.1
  let bA := chromaticAdaptation scaledDiscount.2.2
  let a := (11 * rA + -12 * gA + bA) / 11
  let b := (rA + gA - 2 * bA) / 9
  jsAtan2 b a

/-- `HctSolver.areInCyclicOrder` from hct_solver.ts. -/
def areInCyclicOrder (a b c : ℝ) : Prop :=
  sanitizeRadians (b - a) < sanitizeRadians (c - a)

/-- `HctSolver.intercept` from hct_solver.ts. -/
def intercept (source mid target : ℝ) : ℝ :=
  (mid - source) / (target - source)

/-- `HctSolver.lerpPoint` from hct_solver.ts. -/
def lerpPoint (source : ℝ × ℝ × ℝ) (t : ℝ) (target : ℝ × ℝ × ℝ) : ℝ × ℝ × ℝ :=
  (source.1 + (target.1 - source.1) * t,
   source.2.1 + (target.2.1 - source.2.1) * t,
   source.2.2 + (target.2.2 - source.2.2) * t)

/-- Reads the R-, G- or B-coordinate of a linear RGB triple (the
`point[axis]` indexing of hct_solver.ts). -/
def coordOf (p : ℝ × ℝ × ℝ) (axis : ℕ) : ℝ :=
  match axis with
  | 0 => p.1
  | 1 => p.2.1
  | _ => p.2.2

/-- `HctSolver.setCoordinate` from hct_solver.ts. -/
def setCoordinate (source : ℝ × ℝ × ℝ) (coordinate : ℝ) (target : ℝ × ℝ × ℝ) (axis : ℕ) :
    ℝ × ℝ × ℝ :=
  let t := intercept (coordOf source axis) coordinate (coordOf target axis)
  lerpPoint source t target

/-- `HctSolver.isBounded` from hct_solver.ts. -/
def isBounded (x : ℝ) : Prop :=
  0 ≤ x ∧ x ≤ 100

/-- `HctSolver.nthVertex` from hct_solver.ts. -/
def nthVertex (y : ℝ) (n : ℕ) : ℝ × ℝ × ℝ :=
  let kR := Y_FROM_LINRGB.1
  let kG := Y_FROM_LINRGB.2.1
  let kB := Y_FROM_LINRGB.2.2
  let coordA : ℝ := if n % 4 ≤ 1 then 0 else 100
  let coordB : ℝ := if n % 2 = 0 then 0 else 100
  if n < 4 then
    let g := coordA
    let b := coordB
    let r := (y - g * kG - b * kB) / kR
    if isBounded r then (r, g, b) else (-1, -1, -1)
  else if n < 8 then
    let b := coordA
    let r := coordB
    let g := (y - r * kR - b * kB) / kG
    if isBounded g then (r, g, b) else (-1, -1, -1)
  else
    let r := coordA
    let g := coordB
    let b := (y - r * kR - g * kG) / kB
    if isBounded b then (r, g, b) else (-1, -1, -1)

/-- One iteration (index `n`) of the vertex scan of
`HctSolver.bisectToSegment`; the state is
`(left, right, leftHue, rightHue, initialized, uncut)`. -/
def bisectToSegmentStep (y targetHue : ℝ)
    (st : (ℝ × ℝ × ℝ) × (ℝ × ℝ × ℝ) × ℝ × ℝ × Bool × Bool) (n : ℕ) :
    (ℝ × ℝ × ℝ) × (ℝ × ℝ × ℝ) × ℝ × ℝ × Bool × Bool :=
  match st with
  | (left, right, leftHue, rightHue, initialized, uncut) =>
    let mid := nthVertex y n
    if mid.1 < 0 then (left, right, leftHue, rightHue, initialized, uncut)
    else
      let midHue := hueOf mid
      if ¬initialized then (mid, mid, midHue, midHue, true, uncut)
      else if uncut ∨ areInCyclicOrder leftHue midHue rightHue then
        if areInCyclicOrder leftHue targetHue midHue then
          (left, mid, leftHue, midHue, initialized, false)
        else (mid, right, midHue, rightHue, initialized, false)
      else (left, right, leftHue, rightHue, initialized, uncut)

/-- `HctSolver.bisectToSegment` from hct_solver.ts. -/
def bisectToSegment (y targetHue : ℝ) : (ℝ × ℝ × ℝ) × (ℝ × ℝ × ℝ) :=
  let st := (List.range 12).foldl (bisectToSegmentStep y targetHue)
    ((-1, -1, -1), (-1, -1, -1), 0, 0, false, true)
  (st.1, st.2.1)

/-- `HctSolver.midpoint` from hct_solver.ts. -/
def midpoint (a b : ℝ × ℝ × ℝ) : ℝ × ℝ × ℝ :=
  ((a.1 + b.1) / 2, (a.2.1 + b.2.1) / 2, (a.2.2 + b.2.2) / 2)

/-- `HctSolver.criticalPlaneBelow` from hct_solver.ts. -/
def criticalPlaneBelow (x : ℝ) : ℤ :=
  ⌊x - 0.5⌋

/-- `HctSolver.criticalPlaneAbove` from hct_solver.ts. -/
def criticalPlaneAbove (x : ℝ) : ℤ :=
  ⌈x - 0.5⌉

/-- `HctSolver.CRITICAL_PLANES` from hct_solver.ts (255 luminance
thresholds where the delinearization curve crosses half-integers). -/
def CRITICAL_PLANES : List ℝ := [
  0.015176349177441876, 0.045529047532325624, 0.07588174588720938, 0.10623444424209313,
  0.13658714259697685, 0.16693984095186062, 0.19729253930674434, 0.2276452376616281,
  0.2579979360165119, 0.28835063437139563, 0.3188300904430532, 0.350925934958123,
  0.3848314933096426, 0.42057480301049466, 0.458183274052838, 0.4976837250274023,
  0.5391024159806381, 0.5824650784040898, 0.6277969426914107, 0.6751227633498623,
  0.7244668422128921, 0.775853049866786, 0.829304845476233, 0.8848452951698498,
  0.942497089126609, 1.0022825574869039, 1.0642236851973577, 1.1283421258858297,
  1.1946592148522128, 1.2631959812511864, 1.3339731595349034, 1.407011200216447,
  1.4823302800086415, 1.5599503113873272, 1.6398909516233677, 1.7221716113234105,
  1.8068114625156377, 1.8938294463134073, 1.9832442801866852, 2.075074464868551,
  2.1693382909216234, 2.2660538449872063, 2.36523901573795, 2.4669114995532007,
  2.5710888059345764, 2.6777882626779785, 2.7870270208169257, 2.898822059350997,
  3.0131901897720907, 3.1301480604002863, 3.2497121605402226, 3.3718988244681087,
  3.4967242352587946, 3.624204428461639, 3.754355295633311, 3.887192587735158,
  4.022731918402185, 4.160988767090289, 4.301978482107941, 4.445716283538092,
  4.592217266055746, 4.741496401646282, 4.893568542229298, 5.048448422192488,
  5.20615066083972, 5.3666897647573375, 5.5300801301023865, 5.696336044816294,
  5.865471690767354, 6.037501145825082, 6.212438385869475, 6.390297286737924,
  6.571091626112461, 6.7548350853498045, 6.941541251256611, 7.131223617812143,
  7.323895587840543, 7.5195704746346665, 7.7182615035334345, 7.919981813454504,
  8.124744458384042, 8.332562408825165, 8.543448553206703, 8.757415699253682,
  8.974476575321063, 9.194643831691977, 9.417930041841839, 9.644347703669503,
  9.873909240696694, 10.106627003236781, 10.342513269534024, 10.58158024687427,
  10.8238400726681, 11.069304815507364, 11.317986476196008, 11.569896988756009,
  11.825048221409341, 12.083451977536606, 12.345119996613247, 12.610063955123938,
  12.878295467455942, 13.149826086772048, 13.42466730586372, 13.702830557985108,
  13.984327217668513, 14.269168601521828, 14.55736596900856, 14.848930523210871,
  15.143873411576273, 15.44220572664832, 15.743938506781891, 16.04908273684337,
  16.35764934889634, 16.66964922287304, 16.985093187232053, 17.30399201960269,
  17.62635644741625, 17.95219714852476, 18.281524751807332, 18.614349837764564,
  18.95068293910138, 19.290534541298456, 19.633915083172692, 19.98083495742689,
  20.331304511189067, 20.685334046541502, 21.042933821039977, 21.404114048223256,
  21.76888489811322, 22.137256497705877, 22.50923893145328, 22.884842241736916,
  23.264076429332462, 23.6469514538663, 24.033477234264016, 24.42366364919083,
  24.817520537484558, 25.21505769858089, 25.61628489293138, 26.021211842414342,
  26.429848230738664, 26.842203703840827, 27.258287870275353, 27.678110301598522,
  28.10168053274597, 28.529008062403893, 28.96010235337422, 29.39497283293396,
  29.83362889318845, 30.276079891419332, 30.722335150426627, 31.172403958865512,
  31.62629557157785, 32.08401920991837, 32.54558406207592, 33.010999283389665,
  33.4802739966603, 33.953417292456834, 34.430438229418264, 34.911345834551085,
  35.39614910352207, 35.88485700094671, 36.37747846067349, 36.87402238606382,
  37.37449765026789, 37.87891309649659, 38.38727753828926, 38.89959975977785,
  39.41588851594697, 39.93615253289054, 40.460400508064545, 40.98864111053629,
  41.520882981230194, 42.05713473317016, 42.597404951718396, 43.141702194811224,
  43.6900349931913, 44.24241185063697, 44.798841244188324, 45.35933162437017,
  45.92389141541209, 46.49252901546552, 47.065252796817916, 47.64207110610409,
  48.22299226451468, 48.808024568002054, 49.3971762874833, 49.9904556690408,
  50.587870934119984, 51.189430279724725, 51.79514187861014, 52.40501387947288,
  53.0190544071392, 53.637271562750364, 54.259673423945976, 54.88626804504493,
  55.517063457223934, 56.15206766869424, 56.79128866487574, 57.43473440856916,
  58.08241284012621, 58.734331877617365, 59.39049941699807, 60.05092333227251,
  60.715611475655585, 61.38457167773311, 62.057811747619894, 62.7353394731159,
  63.417162620860914, 64.10328893648692, 64.79372614476921, 65.48848194977529,
  66.18756403501224, 66.89098006357258, 67.59873767827808, 68.31084450182222,
  69.02730813691093, 69.74813616640164, 70.47333615344107, 71.20291564160104,
  71.93688215501312, 72.67524319850172, 73.41800625771542, 74.16517879925733,
  74.9167682708136, 75.67278210128072, 76.43322770089146, 77.1981124613393,
  77.96744375590167, 78.74122893956174, 79.51947534912904, 80.30219030335869,
  81.08938110306934, 81.88105503125999, 82.67721935322541, 83.4778813166706,
  84.28304815182372, 85.09272707154808, 85.90692527145302, 86.72564993000343,
  87.54890820862819, 88.3767072518277, 89.2090541872801, 90.04595612594655,
  90.88742016217518, 91.73345337380438, 92.58406282226491, 93.43925555268066,
  94.29903859396902, 95.16341895893969, 96.03240364439274, 96.9059996312159,
  97.78421388448044, 98.6670533535366, 99.55452497210776
]

/-- The inner 8-round refinement loop of `HctSolver.bisectToLimit` for one
axis; the state is `(lPlane, rPlane, left, leftHue, right)`. -/
def bisectToLimitAxisLoop (targetHue : ℝ) (axis : ℕ) :
    ℕ → (ℤ × ℤ × (ℝ × ℝ × ℝ) × ℝ × (ℝ × ℝ × ℝ)) → ℤ × ℤ × (ℝ × ℝ × ℝ) × ℝ × (ℝ × ℝ × ℝ)
  | 0, st => st
  | (i + 1), st =>
    match st with
    | (lPlane, rPlane, left, leftHue, right) =>
      if |rPlane - lPlane| ≤ 1 then (lPlane, rPlane, left, leftHue, right)
      else
        let mPlane := Int.fdiv (lPlane + rPlane) 2
        let midPlaneCoordinate := CRITICAL_PLANES.getD mPlane.toNat 0
        let mid := setCoordinate left midPlaneCoordinate right axis
        let midHue := hueOf mid
        if areInCyclicOrder leftHue targetHue midHue then
          bisectToLimitAxisLoop targetHue axis i (lPlane, mPlane, left, leftHue, mid)
        else
          bisectToLimitAxisLoop targetHue axis i (mPlane, rPlane, mid, midHue, right)

/-- One axis pass of `HctSolver.bisectToLimit`; the state is
`(left, leftHue, right)`. -/
def bisectToLimitAxis (targetHue : ℝ) (st : (ℝ × ℝ × ℝ) × ℝ × (ℝ × ℝ × ℝ)) (axis : ℕ) :
    (ℝ × ℝ × ℝ) × ℝ × (ℝ × ℝ × ℝ) :=
  match st with
  | (left, leftHue, right) =>
    if coordOf left axis ≠ coordOf right axis then
      let planes : ℤ × ℤ :=
        if coordOf left axis < coordOf right axis then
          (criticalPlaneBelow (trueDelinearized (coordOf left axis)),
           criticalPlaneAbove (trueDelinearized (coordOf right axis)))
        else
          (criticalPlaneAbove (trueDelinearized (coordOf left axis)),
           criticalPlaneBelow (trueDelinearized (coordOf right axis)))
      let res := bisectToLimitAxisLoop targetHue axis 8 (planes.1, planes.2, left, leftHue, right)
      (res.2.2.1, res.2.2.2.1, res.2.2.2.2)
    else (left, leftHue, right)

/-- `HctSolver.bisectToLimit` from hct_solver.ts. -/
def bisectToLimit (y targetHue : ℝ) : ℝ × ℝ × ℝ :=
  let segment := bisectToSegment y targetHue
  let st := [0, 1, 2].foldl (bisectToLimitAxis targetHue)
    (segment.1, hueOf segment.1, segment.2)
  midpoint st.1 st.2.2

/-- `HctSolver.inverseChromaticAdaptation` from hct_solver.ts. -/
def inverseChromaticAdaptation (adapted : ℝ) : ℝ :=
  let adaptedAbs := |adapted|
  let base := max 0 (27.13 * adaptedAbs / (400 - adaptedAbs))
  signum adapted * base ^ ((1 : ℝ) / 0.42)

/-- The iteration loop of `HctSolver.findResultByJ`; fuel `5 - n` plays the
role of `iterationRound`, so `n = 0` is the source's `iterationRound === 4`. -/
def findResultByJGo (chroma y tInnerCoeff p1 hSin hCos : ℝ) : ℕ → ℝ → ℕ
  | 0, _ => 0
  | (n + 1), j =>
    let vc := ViewingConditions.DEFAULT
    let jNormalized := j / 100
    let alpha := if chroma = 0 ∨ j = 0 then 0 else chroma / Real.sqrt jNormalized
    let t := (alpha * tInnerCoeff) ^ ((1 : ℝ) / 0.9)
    let ac := vc.aw * jNormalized ^ (1 / vc.c / vc.z)
    let p2 := ac / vc.nbb
    let gamma := 23 * (p2 + 0.305) * t / (23 * p1 + 11 * t * hCos + 108 * t * hSin)
    let a := gamma * hCos
    let b := gamma * hSin
    let rA := (460 * p2 + 451 * a + 288 * b) / 1403
    let gA := (460 * p2 - 891 * a - 261 * b) / 1403
    let bA := (460 * p2 - 220 * a - 6300 * b) / 1403
    let linrgb := matrixMultiply
      (inverseChromaticAdaptation rA, inverseChromaticAdaptation gA,
        inverseChromaticAdaptation bA)
      LINRGB_FROM_SCALED_DISCOUNT
    if linrgb.1 < 0 ∨ linrgb.2.1 < 0 ∨ linrgb.2.2 < 0 then 0
    else
      let fnj := Y_FROM_LINRGB.1 * linrgb.1 + Y_FROM_LINRGB.2.1 * linrgb.2.1 +
        Y_FROM_LINRGB.2.2 * linrgb.2.2
      if fnj ≤ 0 then 0
      else if n = 0 ∨ |fnj - y| < 0.002 then
        if linrgb.1 > 100.01 ∨ linrgb.2.1 > 100.01 ∨ linrgb.2.2 > 100.01 then 0
        else argbFromLinrgb linrgb
      else
        findResultByJGo chroma y tInnerCoeff p1 hSin hCos n (j - (fnj - y) * j / (2 * fnj))

/-- `HctSolver.findResultByJ` from hct_solver.ts. -/
def findResultByJ (hueRadians chroma y : ℝ) : ℕ :=
  let vc := ViewingConditions.DEFAULT
  let tInnerCoeff := 1 / (1.64 - (0.29 : ℝ) ^ vc.n) ^ (0.73 : ℝ)
  let eHue := 0.25 * (Real.cos (hueRadians + 2) + 3.8)
  let p1 := eHue * (50000 / 13) * vc.nc * vc.ncb
  findResultByJGo chroma y tInnerCoeff p1 (Real.sin hueRadians) (Real.cos hueRadians) 5
    (Real.sqrt y * 11)

/-- `HctSolver.solveToInt` from hct_solver.ts. -/
def solveToInt (hueDegrees chroma lstar : ℝ) : ℕ :=
  if chroma < 1e-4 ∨ lstar < 1e-4 ∨ lstar > 99.9999 then argbFromLstar lstar
  else
    let hueDegreesSanitized := sanitizeDegreesDouble hueDegrees
    let hueRadians := hueDegreesSanitized / 180 * π
    let y := yFromLstar lstar
    let exactAnswer := findResultByJ hueRadians chroma y
    if exactAnswer ≠ 0 then exactAnswer
    else argbFromLinrgb (bisectToLimit y hueRadians)

/-! ## src/hct/hct.ts -/

/-- The `Hct` wrapper: the backing ARGB integer plus the cached hue,
chroma and tone components, exactly the fields set by the constructor
(`this.argb = argb` and the `setInternalState` values). -/
structure Hct where
  argb : ℕ
  internalHue : ℝ
  internalChroma : ℝ
  internalTone : ℝ

/-- `Hct.fromInt` from hct.ts (`new Hct(argb)`): stores `argb` and derives
hue and chroma from `Cam16.fromInt(argb)` and tone from
`lstarFromArgb(argb)`. -/
def Hct.fromInt (argb : ℕ) : Hct :=
  let cam := Cam16.fromInt argb
  ⟨argb, cam.hue, cam.chroma, lstarFromArgb argb⟩

/-- `Hct.toInt` from hct.ts (`return this.argb`). -/
def Hct.toInt (h : Hct) : ℕ :=
  h.argb

/-- The `hue` getter of hct.ts. -/
def Hct.hue (h : Hct) : ℝ :=
  h.internalHue

/-- The `chroma` getter of hct.ts. -/
def Hct.chroma (h : Hct) : ℝ :=
  h.internalChroma

/-- The `tone` getter of hct.ts. -/
def Hct.tone (h : Hct) : ℝ :=
  h.internalTone

/-- `Hct.from` from hct.ts (named `from'` because `from` is a Lean
keyword): `new Hct(HctSolver.solveToInt(hue, chroma, tone))`. -/
def Hct.from' (hue chroma tone : ℝ) : Hct :=
  Hct.fromInt (solveToInt hue chroma tone)

/-- `Hct.isYellow` from hct.ts. -/
def Hct.isYellow (hue : ℝ) : Prop :=
  105 ≤ hue ∧ hue < 125

/-! ## src/contrast/contrast.ts -/

namespace Contrast

/-- `Contrast.ratioOfYs` from contrast.ts. -/
def ratioOfYs (y1 y2 : ℝ) : ℝ :=
  let lighter := if y1 > y2 then y1 else y2
  let darker := if lighter = y2 then y1 else y2
  (lighter + 5) / (darker + 5)

/-- `Contrast.ratioOfTones` from contrast.ts. -/
def ratioOfTones (toneA toneB : ℝ) : ℝ :=
  ratioOfYs (yFromLstar (clampDouble 0 100 toneA)) (yFromLstar (clampDouble 0 100 toneB))

/-- `Contrast.lighter` from contrast.ts. -/
def lighter (tone ratio : ℝ) : ℝ :=
  if tone < 0 ∨ tone > 100 then -1
  else
    let darkY := yFromLstar tone
    let lightY := ratio * (darkY + 5) - 5
    let realContrast := ratioOfYs lightY darkY
    let delta := |realContrast - ratio|
    if realContrast < ratio ∧ delta > 0.04 then -1
    else
      let returnValue := lstarFromY lightY + 0.4
      if returnValue < 0 ∨ returnValue > 100 then -1 else returnValue

/-- `Contrast.darker` from contrast.ts. -/
def darker (tone ratio : ℝ) : ℝ :=
  if tone < 0 ∨ tone > 100 then -1
  else
    let lightY := yFromLstar tone
    let darkY := (lightY + 5) / ratio - 5
    let realContrast := ratioOfYs lightY darkY
    let delta := |realContrast - ratio|
    if realContrast < ratio ∧ delta > 0.04 then -1
    else
      let returnValue := lstarFromY darkY - 0.4
      if returnValue < 0 ∨ returnValue > 100 then -1 else returnValue

/-- `Contrast.lighterUnsafe` from contrast.ts. -/
def lighterUnsafe (tone ratio : ℝ) : ℝ :=
  let lighterSafe := lighter tone ratio
  if lighterSafe < 0 then 100 else lighterSafe

/-- `Contrast.darkerUnsafe` from contrast.ts. -/
def darkerUnsafe (tone ratio : ℝ) : ℝ :=
  let darkerSafe := darker tone ratio
  if darkerSafe < 0 then 0 else darkerSafe

end Contrast

/-! ## src/palettes/tonal_palette.ts -/

/-- A `TonalPalette`: fixed hue and chroma plus the key color computed at
construction.  The tone→ARGB memo cache of the source is not modelled:
`tone` below is the pure function the cache memoizes (the cache is only
ever filled with `tone`'s own results, so it does not change values). -/
structure TonalPalette where
  hue : ℝ
  chroma : ℝ
  keyColor : Hct

/-- `TonalPalette.averageArgb` from tonal_palette.ts. -/
def TonalPalette.averageArgb (argb1 argb2 : ℕ) : ℕ :=
  let red1 := (argb1 >>> 16) &&& 255
  let green1 := (argb1 >>> 8) &&& 255
  let blue1 := argb1 &&& 255
  let red2 := (argb2 >>> 16) &&& 255
  let green2 := (argb2 >>> 8) &&& 255
  let blue2 := argb2 &&& 255
  let red := (jsRound (((red1 + red2 : ℕ) : ℝ) / 2)).toNat
  let green := (jsRound (((green1 + green2 : ℕ) : ℝ) / 2)).toNat
  let blue := (jsRound (((blue1 + blue2 : ℕ) : ℝ) / 2)).toNat
  255 <<< 24 ||| ((red &&& 255) <<< 16) ||| ((green &&& 255) <<< 8) ||| (blue &&& 255)

/-- The direct-solve branch of `TonalPalette.tone`:
`Hct.from(this.hue, this.chroma, tone).toInt()`. -/
def TonalPalette.solveTone (p : TonalPalette) (tone : ℝ) : ℕ :=
  (Hct.from' p.hue p.chroma tone).toInt

/-- `TonalPalette.tone` from tonal_palette.ts.  The source's recursive
calls `this.tone(98)` and `this.tone(100)` both take the direct-solve
branch (their argument is not `99`), so they appear here as `solveTone`. -/
def TonalPalette.tone (p : TonalPalette) (tone : ℝ) : ℕ :=
  if tone = 99 ∧ Hct.isYellow p.hue then
    TonalPalette.averageArgb (p.solveTone 98) (p.solveTone 100)
  else p.solveTone tone

/-- `TonalPalette.getHct` from tonal_palette.ts. -/
def TonalPalette.getHct (p : TonalPalette) (tone : ℝ) : Hct :=
  Hct.fromInt (p.tone tone)

/-! ## src/dynamiccolor: enums, ContrastCurve, ToneDeltaPair, DynamicScheme -/

/-- The `Variant` enum of variant.ts. -/
inductive Variant where
  | monochrome
  | neutral
  | tonalSpot
  | vibrant
  | expressive
  | fidelity
  | content
  | rainbow
  | fruitSalad
deriving DecidableEq

/-- The `Platform` values (`"phone" | "watch"`). -/
inductive Platform where
  | phone
  | watch
deriving DecidableEq

/-- The `SpecVersion` values (`"2021" | "2025"`). -/
inductive SpecVersion where
  | spec2021
  | spec2025
deriving DecidableEq

/-- `ContrastCurve` from contrast_curve.ts. -/
structure ContrastCurve where
  low : ℝ
  normal : ℝ
  medium : ℝ
  high : ℝ

/-- `ContrastCurve.get` from contrast_curve.ts. -/
def ContrastCurve.get (c : ContrastCurve) (contrastLevel : ℝ) : ℝ :=
  if contrastLevel ≤ -1 then c.low
  else if contrastLevel < 0 then lerp c.low c.normal ((contrastLevel - -1) / 1)
  else if contrastLevel < 0.5 then lerp c.normal c.medium ((contrastLevel - 0) / 0.5)
  else if contrastLevel < 1 then lerp c.medium c.high ((contrastLevel - 0.5) / 0.5)
  else c.high

/-- The `TonePolarity` values of tone_delta_pair.ts. -/
inductive TonePolarity where
  | darker
  | lighter
  | nearer
  | farther
  | relativeDarker
  | relativeLighter
deriving DecidableEq

/-- The `DeltaConstraint` values of tone_delta_pair.ts
(`"exact" | "nearer" | "farther"`; the constructor defaults to `exact`). -/
inductive DeltaConstraint where
  | exact
  | nearer
  | farther
deriving DecidableEq

/-- `ToneDeltaPair` from tone_delta_pair.ts, parameterized by the role type
so that it can be nested inside `DynamicColor`. -/
structure ToneDeltaPairOf (α : Type) where
  roleA : α
  roleB : α
  delta : ℝ
  polarity : TonePolarity
  stayTogether : Bool
  constraint : DeltaConstraint

/-- `DynamicScheme` from dynamic_scheme.ts: the immutable bundle of
constructor-assigned fields.  (The `colors : MaterialDynamicColors`
role-accessor bundle is not modelled as a field; role resolution is
modelled directly through `getTone`/`delegateGetHct` below.) -/
structure DynamicScheme where
  sourceColorArgb : ℕ
  variant : Variant
  contrastLevel : ℝ
  isDark : Bool
  platform : Platform
  specVersion : SpecVersion
  sourceColorHct : Hct
  primaryPalette : TonalPalette
  secondaryPalette : TonalPalette
  tertiaryPalette : TonalPalette
  neutralPalette : TonalPalette
  neutralVariantPalette : TonalPalette
  errorPalette : TonalPalette

/-- `DynamicColor` from dynamic_color.ts: a named role with lazy
per-scheme fields.  `background`, `secondBackground`, `contrastCurve` and
`toneDeltaPair` are optional functions that may themselves return
`undefined` for a given scheme, hence the nested `Option`s. -/
inductive DynamicColor where
  | mk
    (name : String)
    (palette : DynamicScheme → TonalPalette)
    (tone : DynamicScheme → ℝ)
    (isBackground : Bool)
    (chromaMultiplier : Option (DynamicScheme → ℝ))
    (background : Option (DynamicScheme → Option DynamicColor))
    (secondBackground : Option (DynamicScheme → Option DynamicColor))
    (contrastCurve : Option (DynamicScheme → Option ContrastCurve))
    (toneDeltaPair : Option (DynamicScheme → Option (ToneDeltaPairOf DynamicColor)))

/-- The `name` field of a `DynamicColor`. -/
def DynamicColor.name : DynamicColor → String
  | .mk name _ _ _ _ _ _ _ _ => name

/-- The `palette` field of a `DynamicColor`. -/
def DynamicColor.palette : DynamicColor → DynamicScheme → TonalPalette
  | .mk _ palette _ _ _ _ _ _ _ => palette

/-- The `tone` field of a `DynamicColor`. -/
def DynamicColor.tone : DynamicColor → DynamicScheme → ℝ
  | .mk _ _ tone _ _ _ _ _ _ => tone

/-- The `isBackground` field of a `DynamicColor`. -/
def DynamicColor.isBackground : DynamicColor → Bool
  | .mk _ _ _ isBackground _ _ _ _ _ => isBackground

/-- The `chromaMultiplier` field of a `DynamicColor`. -/
def DynamicColor.chromaMultiplier : DynamicColor → Option (DynamicScheme → ℝ)
  | .mk _ _ _ _ chromaMultiplier _ _ _ _ => chromaMultiplier

/-- The `background` field of a `DynamicColor`. -/
def DynamicColor.background : DynamicColor → Option (DynamicScheme → Option DynamicColor)
  | .mk _ _ _ _ _ background _ _ _ => background

/-- The `secondBackground` field of a `DynamicColor`. -/
def DynamicColor.secondBackground : DynamicColor → Option (DynamicScheme → Option DynamicColor)
  | .mk _ _ _ _ _ _ secondBackground _ _ => secondBackground

/-- The `contrastCurve` field of a `DynamicColor`. -/
def DynamicColor.contrastCurve : DynamicColor → Option (DynamicScheme → Option ContrastCurve)
  | .mk _ _ _ _ _ _ _ contrastCurve _ => contrastCurve

/-- The `toneDeltaPair` field of a `DynamicColor`. -/
def DynamicColor.toneDeltaPair :
    DynamicColor → Option (DynamicScheme → Option (ToneDeltaPairOf DynamicColor))
  | .mk _ _ _ _ _ _ _ _ toneDeltaPair => toneDeltaPair

/-- `DynamicColor.tonePrefersLightForeground` from dynamic_color.ts
(`Math.round(tone) < 60`). -/
def tonePrefersLightForeground (tone : ℝ) : Prop :=
  jsRound tone < 60

/-- `DynamicColor.toneAllowsLightForeground` from dynamic_color.ts. -/
def toneAllowsLightForeground (tone : ℝ) : Prop :=
  jsRound tone ≤ 49

/-- `DynamicColor.foregroundTone` from dynamic_color.ts. -/
def foregroundTone (bgTone ratio : ℝ) : ℝ :=
  let lighterTone := Contrast.lighterUnsafe bgTone ratio
  let darkerTone := Contrast.darkerUnsafe bgTone ratio
  let lighterRatio := Contrast.ratioOfTones lighterTone bgTone
  let darkerRatio := Contrast.ratioOfTones darkerTone bgTone
  if tonePrefersLightForeground bgTone then
    let negligibleDifference :=
      |lighterRatio - darkerRatio| < 0.1 ∧ lighterRatio < ratio ∧ darkerRatio < ratio
    if lighterRatio ≥ ratio ∨ lighterRatio ≥ darkerRatio ∨ negligibleDifference then lighterTone
    else darkerTone
  else if darkerRatio ≥ ratio ∨ darkerRatio ≥ lighterRatio then darkerTone
  else lighterTone

/-- The JS `name.endsWith(pat)` test, modelled as a suffix test on the
character sequence (computable and kernel-reducible, unlike
`String.endsWith`'s substring arithmetic). -/
def strEndsWith (s pat : String) : Bool :=
  pat.data.isSuffixOf s.data

/-- `DynamicColor.getTone`, dispatching on `scheme.specVersion` to the
`getTone` of `ColorCalculationDelegateImpl2025` or
`ColorCalculationDelegateImpl2021` (dynamic_color.ts / color_spec
delegates).  The mutual recursion through `background`, `secondBackground`
and `toneDeltaPair` roles is made total with an explicit `fuel` argument:
the source's role tables are acyclic, so every call there terminates and
equals this function for any sufficiently large fuel; exhausted fuel
returns `0`. -/
def getTone : ℕ → DynamicScheme → DynamicColor → ℝ
  | 0, _, _ => 0
  | (n + 1), s, c =>
    if s.specVersion = SpecVersion.spec2025 then
      -- ColorCalculationDelegateImpl2025.getTone
      match (match c.toneDeltaPair with
             | some pairf => pairf s
             | none => none) with
      | some pair =>
        let absoluteDelta :=
          if pair.polarity = TonePolarity.darker ∨
              (pair.polarity = TonePolarity.relativeLighter ∧ s.isDark) ∨
              (pair.polarity = TonePolarity.relativeDarker ∧ ¬s.isDark) then
            -pair.delta
          else pair.delta
        let amRoleA := c.name = pair.roleA.name
        let selfRole := if amRoleA then pair.roleA else pair.roleB
        let refRole := if amRoleA then pair.roleB else pair.roleA
        let selfTone0 := selfRole.tone s
        let refTone := getTone n s refRole
        let relativeDelta := absoluteDelta * (if amRoleA then 1 else -1)
        let selfTone1 :=
          match pair.constraint with
          | DeltaConstraint.exact => clampDouble 0 100 (refTone + relativeDelta)
          | DeltaConstraint.nearer =>
            if relativeDelta > 0 then
              clampDouble 0 100 (clampDouble refTone (refTone + relativeDelta) selfTone0)
            else clampDouble 0 100 (clampDouble (refTone + relativeDelta) refTone selfTone0)
          | DeltaConstraint.farther =>
            if relativeDelta > 0 then clampDouble (refTone + relativeDelta) 100 selfTone0
            else clampDouble 0 (refTone + relativeDelta) selfTone0
        let selfTone2 :=
          match c.background, c.contrastCurve with
          | some bgf, some ccf =>
            match bgf s, ccf s with
            | some bg, some curve =>
              let bgTone := getTone n s bg
              let selfContrast := curve.get s.contrastLevel
              if Contrast.ratioOfTones bgTone selfTone1 ≥ selfContrast ∧
                  s.contrastLevel ≥ 0 then selfTone1
              else foregroundTone bgTone selfContrast
            | _, _ => selfTone1
          | _, _ => selfTone1
        if c.isBackground ∧ ¬(strEndsWith c.name "_fixed_dim") then
          if selfTone2 ≥ 57 then clampDouble 65 100 selfTone2
          else clampDouble 0 49 selfTone2
        else selfTone2
      | none =>
        let answer0 := c.tone s
        match c.background, c.contrastCurve with
        | some bgf, some ccf =>
          match bgf s, ccf s with
          | some bg, some curve =>
            let bgTone := getTone n s bg
            let desiredRatio := curve.get s.contrastLevel
            let answer1 :=
              if Contrast.ratioOfTones bgTone answer0 ≥ desiredRatio ∧
                  s.contrastLevel ≥ 0 then answer0
              else foregroundTone bgTone desiredRatio
            let answer2 :=
              if c.isBackground ∧ ¬(strEndsWith c.name "_fixed_dim") then
                if answer1 ≥ 57 then clampDouble 65 100 answer1
                else clampDouble 0 49 answer1
              else answer1
            match c.secondBackground with
            | none => answer2
            | some sbgf =>
              match sbgf s with
              | none => answer2
              | some sbg =>
                let bgTone1 := getTone n s bg
                let bgTone2 := getTone n s sbg
                let upper := max bgTone1 bgTone2
                let lower := min bgTone1 bgTone2
                if Contrast.ratioOfTones upper answer2 ≥ desiredRatio ∧
                    Contrast.ratioOfTones lower answer2 ≥ desiredRatio then answer2
                else
                  let lightOption := Contrast.lighter upper desiredRatio
                  let darkOption := Contrast.darker lower desiredRatio
                  if tonePrefersLightForeground bgTone1 ∨
                      tonePrefersLightForeground bgTone2 then
                    if lightOption < 0 then 100 else lightOption
                  else if lightOption ≠ -1 ∧ darkOption = -1 then lightOption
                  else if lightOption = -1 ∧ darkOption ≠ -1 then darkOption
                  else if darkOption < 0 then 0 else darkOption
          | _, _ => answer0
        | _, _ => answer0
    else
      -- ColorCalculationDelegateImpl2021.getTone
      let decreasingContrast := s.contrastLevel < 0
      match (match c.toneDeltaPair with
             | some pairf => pairf s
             | none => none) with
      | some pair =>
        let delta := pair.delta
        let aIsNearer :=
          pair.polarity = TonePolarity.nearer ∨
            (pair.polarity = TonePolarity.lighter ∧ ¬s.isDark) ∨
            (pair.polarity = TonePolarity.darker ∧ s.isDark)
        let nearerRole := if aIsNearer then pair.roleA else pair.roleB
        let fartherRole := if aIsNearer then pair.roleB else pair.roleA
        let amNearer := c.name = nearerRole.name
        let expansionDir : ℝ := if s.isDark then 1 else -1
        let nTone0 := nearerRole.tone s
        let fTone0 := fartherRole.tone s
        let tones1 : ℝ × ℝ :=
          match c.background, nearerRole.contrastCurve, fartherRole.contrastCurve with
          | some bgf, some ncf, some fcf =>
            match bgf s, ncf s, fcf s with
            | some bg, some nCurve, some fCurve =>
              let bgTone := getTone n s bg
              let nContrast := nCurve.get s.contrastLevel
              let fContrast := fCurve.get s.contrastLevel
              let nTone' :=
                if Contrast.ratioOfTones bgTone nTone0 < nContrast then
                  foregroundTone bgTone nContrast
                else nTone0
              let fTone' :=
                if Contrast.ratioOfTones bgTone fTone0 < fContrast then
                  foregroundTone bgTone fContrast
                else fTone0
              if decreasingContrast then
                (foregroundTone bgTone nContrast, foregroundTone bgTone fContrast)
              else (nTone', fTone')
            | _, _, _ => (nTone0, fTone0)
          | _, _, _ => (nTone0, fTone0)
        let tones2 : ℝ × ℝ :=
          if (tones1.2 - tones1.1) * expansionDir < delta then
            let fT := clampDouble 0 100 (tones1.1 + delta * expansionDir)
            if (fT - tones1.1) * expansionDir ≥ delta then (tones1.1, fT)
            else (clampDouble 0 100 (fT - delta * expansionDir), fT)
          else tones1
        let tones3 : ℝ × ℝ :=
          if 50 ≤ tones2.1 ∧ tones2.1 < 60 then
            if expansionDir > 0 then (60, max tones2.2 (60 + delta * expansionDir))
            else (49, min tones2.2 (49 + delta * expansionDir))
          else if 50 ≤ tones2.2 ∧ tones2.2 < 60 then
            if pair.stayTogether then
              if expansionDir > 0 then (60, max tones2.2 (60 + delta * expansionDir))
              else (49, min tones2.2 (49 + delta * expansionDir))
            else if expansionDir > 0 then (tones2.1, 60)
            else (tones2.1, 49)
          else tones2
        if amNearer then tones3.1 else tones3.2
      | none =>
        let answer0 := c.tone s
        match c.background, c.contrastCurve with
        | some bgf, some ccf =>
          match bgf s, ccf s with
          | some bg, some curve =>
            let bgTone := getTone n s bg
            let desiredRatio := curve.get s.contrastLevel
            let answer1 :=
              if Contrast.ratioOfTones bgTone answer0 ≥ desiredRatio then answer0
              else foregroundTone bgTone desiredRatio
            let answer2 :=
              if decreasingContrast then foregroundTone bgTone desiredRatio else answer1
            let answer3 :=
              if c.isBackground = true ∧ 50 ≤ answer2 ∧ answer2 < 60 then
                if Contrast.ratioOfTones 49 bgTone ≥ desiredRatio then 49 else 60
              else answer2
            match c.secondBackground with
            | none => answer3
            | some sbgf =>
              match sbgf s with
              | none => answer3
              | some sbg =>
                let bgTone1 := getTone n s bg
                let bgTone2 := getTone n s sbg
                let upper := max bgTone1 bgTone2
                let lower := min bgTone1 bgTone2
                if Contrast.ratioOfTones upper answer3 ≥ desiredRatio ∧
                    Contrast.ratioOfTones lower answer3 ≥ desiredRatio then answer3
                else
                  let lightOption := Contrast.lighter upper desiredRatio
                  let darkOption := Contrast.darker lower desiredRatio
                  if tonePrefersLightForeground bgTone1 ∨
                      tonePrefersLightForeground bgTone2 then
                    if lightOption < 0 then 100 else lightOption
                  else if lightOption ≠ -1 ∧ darkOption = -1 then lightOption
                  else if lightOption = -1 ∧ darkOption ≠ -1 then darkOption
                  else if darkOption < 0 then 0 else darkOption
          | _, _ => answer0
        | _, _ => answer0

/-- `KeyColor.maxChroma` from tonal_palette.ts: the chroma actually
achieved when requesting the unreachable ceiling `maxChromaValue = 200`
(the source memoizes this pure function in `chromaCache`). -/
def keyColorMaxChroma (hue : ℝ) (tone : ℝ) : ℝ :=
  (Hct.from' hue 200 tone).chroma

/-- The `while (lowerTone < upperTone)` binary search of
`KeyColor.create` (pivotTone 50, toneStepSize 1, epsilon 0.01).  The
interval shrinks on every pass, so 101 rounds of fuel always suffice for
the initial interval `[0, 100]`. -/
def keyColorCreateGo (hue requestedChroma : ℝ) : ℕ → ℕ → ℕ → Hct
  | 0, lowerTone, _ => Hct.from' hue requestedChroma lowerTone
  | (fuel + 1), lowerTone, upperTone =>
    if lowerTone < upperTone then
      let midTone := (lowerTone + upperTone) / 2
      let isAscending := keyColorMaxChroma hue midTone < keyColorMaxChroma hue (midTone + 1)
      let sufficientChroma := keyColorMaxChroma hue midTone ≥ requestedChroma - 0.01
      if sufficientChroma then
        if |(lowerTone : ℝ) - 50| < |(upperTone : ℝ) - 50| then
          keyColorCreateGo hue requestedChroma fuel lowerTone midTone
        else if lowerTone = midTone then Hct.from' hue requestedChroma lowerTone
        else keyColorCreateGo hue requestedChroma fuel midTone upperTone
      else if isAscending then keyColorCreateGo hue requestedChroma fuel (midTone + 1) upperTone
      else keyColorCreateGo hue requestedChroma fuel lowerTone midTone
    else Hct.from' hue requestedChroma lowerTone

/-- `KeyColor.create` from tonal_palette.ts. -/
def keyColorCreate (hue requestedChroma : ℝ) : Hct :=
  keyColorCreateGo hue requestedChroma 101 0 100

/-- `TonalPalette.fromHueAndChroma` from tonal_palette.ts. -/
def TonalPalette.fromHueAndChroma (hue chroma : ℝ) : TonalPalette :=
  ⟨hue, chroma, keyColorCreate hue chroma⟩

/-- The `getHct` of the two color-calculation delegates, dispatched on
`scheme.specVersion` (2021: `palette.getHct(tone)`; 2025:
`Hct.from(palette.hue, palette.chroma * chromaMultiplier, tone)`). -/
def delegateGetHct (fuel : ℕ) (s : DynamicScheme) (c : DynamicColor) : Hct :=
  if s.specVersion = SpecVersion.spec2025 then
    let palette := c.palette s
    let tone := getTone fuel s c
    let chroma := palette.chroma *
      (match c.chromaMultiplier with
       | some f => f s
       | none => 1)
    Hct.from' palette.hue chroma tone
  else
    let tone := getTone fuel s c
    (c.palette s).getHct tone

/-- Key lookup in an association list, modelling `Map.get`.  The key type
`κ` models JavaScript `Map` keys compared by object identity (the
`hctCache` of a `DynamicColor` is keyed by `DynamicScheme` instance). -/
def lookupCache {κ α : Type} [DecidableEq κ] : List (κ × α) → κ → Option α
  | [], _ => none
  | (k, v) :: rest, key => if k = key then some v else lookupCache rest key

/-- `DynamicColor.getHct` from dynamic_color.ts, with the mutable
`hctCache` map made explicit: the function returns the answer together
with the updated cache.  `resolve` is
`getSpec(scheme.specVersion).getHct(scheme, this)` — a pure function of
the scheme (see `delegateGetHct`).  On a miss the source checks
`this.hctCache.size > 4`, clears the whole map if so, and then inserts. -/
def getHctCached {κ α : Type} [DecidableEq κ] (resolve : κ → α)
    (cache : List (κ × α)) (scheme : κ) : α × List (κ × α) :=
  match lookupCache cache scheme with
  | some cachedAnswer => (cachedAnswer, cache)
  | none =>
    let answer := resolve scheme
    let cache1 := if 4 < cache.length then [] else cache
    (answer, cache1 ++ [(scheme, answer)])

/-- The options record of the `DynamicScheme` constructor (the palette
fields are optional and fall back to the spec delegate). -/
structure DynamicSchemeOptions where
  sourceColorHct : Hct
  isDark : Bool
  contrastLevel : ℝ
  variant : Variant
  specVersion : SpecVersion
  platform : Platform
  primaryPalette : Option TonalPalette
  secondaryPalette : Option TonalPalette
  tertiaryPalette : Option TonalPalette
  neutralPalette : Option TonalPalette
  neutralVariantPalette : Option TonalPalette
  errorPalette : Option TonalPalette

/-- The palette-generation delegate interface selected by
`getSpec(specVersion)` in the `DynamicScheme` constructor: one pure
function per palette of `(variant, sourceColorHct, isDark, platform,
contrastLevel)`.  `getErrorPalette` may return `undefined`, with the
constructor falling back to `TonalPalette.fromHueAndChroma(25, 84)`. -/
structure PaletteDelegate where
  getPrimaryPalette : Variant → Hct → Bool → Platform → ℝ → TonalPalette
  getSecondaryPalette : Variant → Hct → Bool → Platform → ℝ → TonalPalette
  getTertiaryPalette : Variant → Hct → Bool → Platform → ℝ → TonalPalette
  getNeutralPalette : Variant → Hct → Bool → Platform → ℝ → TonalPalette
  getNeutralVariantPalette : Variant → Hct → Bool → Platform → ℝ → TonalPalette
  getErrorPalette : Variant → Hct → Bool → Platform → ℝ → Option TonalPalette

/-- The `DynamicScheme` constructor from dynamic_scheme.ts, parameterized
by the spec-version → palette-delegate table (`getSpec`); each palette is
the supplied one if present, else the delegate's. -/
def mkDynamicScheme (getSpecPalettes : SpecVersion → PaletteDelegate)
    (o : DynamicSchemeOptions) : DynamicScheme :=
  let spec := getSpecPalettes o.specVersion
  { sourceColorArgb := o.sourceColorHct.toInt
    variant := o.variant
    contrastLevel := o.contrastLevel
    isDark := o.isDark
    platform := o.platform
    specVersion := o.specVersion
    sourceColorHct := o.sourceColorHct
    primaryPalette := o.primaryPalette.getD
      (spec.getPrimaryPalette o.variant o.sourceColorHct o.isDark o.platform o.contrastLevel)
    secondaryPalette := o.secondaryPalette.getD
      (spec.getSecondaryPalette o.variant o.sourceColorHct o.isDark o.platform o.contrastLevel)
    tertiaryPalette := o.tertiaryPalette.getD
      (spec.getTertiaryPalette o.variant o.sourceColorHct o.isDark o.platform o.contrastLevel)
    neutralPalette := o.neutralPalette.getD
      (spec.getNeutralPalette o.variant o.sourceColorHct o.isDark o.platform o.contrastLevel)
    neutralVariantPalette := o.neutralVariantPalette.getD
      (spec.getNeutralVariantPalette o.variant o.sourceColorHct o.isDark o.platform
        o.contrastLevel)
    errorPalette := o.errorPalette.getD
      ((spec.getErrorPalette o.variant o.sourceColorHct o.isDark o.platform
          o.contrastLevel).getD (TonalPalette.fromHueAndChroma 25 84)) }

/-! ## src/quantize/quantizer_map.ts -/

/-- One `countByColor.set(pixel, (countByColor.get(pixel) ?? 0) + 1)`
step on an insertion-ordered association list (the JS `Map`). -/
def countMapIncr : List (ℕ × ℕ) → ℕ → List (ℕ × ℕ)
  | [], pixel => [(pixel, 1)]
  | (k, v) :: rest, pixel =>
    if k = pixel then (k, v + 1) :: rest else (k, v) :: countMapIncr rest pixel

/-- `QuantizerMap.quantize` from quantizer_map.ts: count pixels by color,
skipping any pixel whose alpha is below 255. -/
def quantizerMapQuantize (pixels : List ℕ) : List (ℕ × ℕ) :=
  pixels.foldl
    (fun countByColor pixel =>
      if alphaFromArgb pixel < 255 then countByColor
      else countMapIncr countByColor pixel)
    []

/-! ## src/quantize/quantizer_wu.ts -/

/-- `getIndex` from quantizer_wu.ts with `INDEX_BITS = 5`:
`(r << 10) + (r << 6) + r + (g << 5) + g + b`. -/
def wuGetIndex (r g b : ℕ) : ℕ :=
  (r <<< 10) + (r <<< 6) + r + (g <<< 5) + g + b

/-- The five moment histograms of `QuantizerWu` (length-35937 arrays in
the source, modelled as functions; all entries are integers). -/
structure WuMoments where
  weights : ℕ → ℤ
  momentsR : ℕ → ℤ
  momentsG : ℕ → ℤ
  momentsB : ℕ → ℤ
  moments : ℕ → ℤ

/-- Point update of a histogram array. -/
def updFn (f : ℕ → ℤ) (i : ℕ) (v : ℤ) : ℕ → ℤ :=
  fun j => if j = i then v else f j

/-- `constructHistogram` from quantizer_wu.ts, consuming the
`QuantizerMap` result (`bitsToRemove = 8 - INDEX_BITS = 3`). -/
def wuConstructHistogram (countByColor : List (ℕ × ℕ)) : WuMoments :=
  countByColor.foldl
    (fun m pc =>
      let pixel := pc.1
      let count : ℤ := pc.2
      let red : ℤ := redFromArgb pixel
      let green : ℤ := greenFromArgb pixel
      let blue : ℤ := blueFromArgb pixel
      let iR := (redFromArgb pixel >>> 3) + 1
      let iG := (greenFromArgb pixel >>> 3) + 1
      let iB := (blueFromArgb pixel >>> 3) + 1
      let index := wuGetIndex iR iG iB
      { weights := updFn m.weights index (m.weights index + count)
        momentsR := updFn m.momentsR index (m.momentsR index + count * red)
        momentsG := updFn m.momentsG index (m.momentsG index + count * green)
        momentsB := updFn m.momentsB index (m.momentsB index + count * blue)
        moments := updFn m.moments index
          (m.moments index + count * (red * red + green * green + blue * blue)) })
    ⟨fun _ => 0, fun _ => 0, fun _ => 0, fun _ => 0, fun _ => 0⟩

/-- The per-`r` running area arrays of `computeMoments`. -/
structure WuAreas where
  area : ℕ → ℤ
  areaR : ℕ → ℤ
  areaG : ℕ → ℤ
  areaB : ℕ → ℤ
  area2 : ℕ → ℤ

/-- The per-`g` running line sums of `computeMoments`. -/
structure WuLines where
  line : ℤ
  lineR : ℤ
  lineG : ℤ
  lineB : ℤ
  line2 : ℤ

/-- The innermost (`b`) step of `computeMoments`. -/
def wuMomentsStepB (r g : ℕ) (st : WuMoments × WuAreas × WuLines) (b : ℕ) :
    WuMoments × WuAreas × WuLines :=
  match st with
  | (m, ar, ln) =>
    let index := wuGetIndex r g b
    let line := ln.line + m.weights index
    let lineR := ln.lineR + m.momentsR index
    let lineG := ln.lineG + m.momentsG index
    let lineB := ln.lineB + m.momentsB index
    let line2 := ln.line2 + m.moments index
    let ar' : WuAreas :=
      { area := updFn ar.area b (ar.area b + line)
        areaR := updFn ar.areaR b (ar.areaR b + lineR)
        areaG := updFn ar.areaG b (ar.areaG b + lineG)
        areaB := updFn ar.areaB b (ar.areaB b + lineB)
        area2 := updFn ar.area2 b (ar.area2 b + line2) }
    let previousIndex := wuGetIndex (r - 1) g b
    let m' : WuMoments :=
      { weights := updFn m.weights index (m.weights previousIndex + ar'.area b)
        momentsR := updFn m.momentsR index (m.momentsR previousIndex + ar'.areaR b)
        momentsG := updFn m.momentsG index (m.momentsG previousIndex + ar'.areaG b)
        momentsB := updFn m.momentsB index (m.momentsB previousIndex + ar'.areaB b)
        moments := updFn m.moments index (m.moments previousIndex + ar'.area2 b) }
    (m', ar', ⟨line, lineR, lineG, lineB, line2⟩)

/-- The middle (`g`) step of `computeMoments`: line sums reset to zero,
then the `b` loop runs for `b = 1..32`. -/
def wuMomentsStepG (r : ℕ) (st : WuMoments × WuAreas) (g : ℕ) : WuMoments × WuAreas :=
  let res := (List.range' 1 32).foldl (wuMomentsStepB r g) (st.1, st.2, ⟨0, 0, 0, 0, 0⟩)
  (res.1, res.2.1)

/-- The outer (`r`) step of `computeMoments`: fresh zero area arrays,
then the `g` loop runs for `g = 1..32`. -/
def wuMomentsStepR (m : WuMoments) (r : ℕ) : WuMoments :=
  ((List.range' 1 32).foldl (wuMomentsStepG r)
    (m, ⟨fun _ => 0, fun _ => 0, fun _ => 0, fun _ => 0, fun _ => 0⟩)).1

/-- `computeMoments` from quantizer_wu.ts (`r, g, b` each `1..32`). -/
def wuComputeMoments (m : WuMoments) : WuMoments :=
  (List.range' 1 32).foldl wuMomentsStepR m

/-- `Box` from quantizer_wu.ts (all fields default 0). -/
structure Box where
  r0 : ℕ
  r1 : ℕ
  g0 : ℕ
  g1 : ℕ
  b0 : ℕ
  b1 : ℕ
  vol : ℤ

instance : Inhabited Box := ⟨⟨0, 0, 0, 0, 0, 0, 0⟩⟩

/-- The cut directions of quantizer_wu.ts. -/
inductive WuDirection where
  | red
  | green
  | blue

/-- `volume` from quantizer_wu.ts. -/
def wuVolume (cube : Box) (moment : ℕ → ℤ) : ℤ :=
  moment (wuGetIndex cube.r1 cube.g1 cube.b1) - moment (wuGetIndex cube.r1 cube.g1 cube.b0) -
    moment (wuGetIndex cube.r1 cube.g0 cube.b1) + moment (wuGetIndex cube.r1 cube.g0 cube.b0) -
    moment (wuGetIndex cube.r0 cube.g1 cube.b1) + moment (wuGetIndex cube.r0 cube.g1 cube.b0) +
    moment (wuGetIndex cube.r0 cube.g0 cube.b1) - moment (wuGetIndex cube.r0 cube.g0 cube.b0)

/-- `bottom` from quantizer_wu.ts. -/
def wuBottom (cube : Box) (direction : WuDirection) (moment : ℕ → ℤ) : ℤ :=
  match direction with
  | .red =>
    -moment (wuGetIndex cube.r0 cube.g1 cube.b1) + moment (wuGetIndex cube.r0 cube.g1 cube.b0) +
      moment (wuGetIndex cube.r0 cube.g0 cube.b1) - moment (wuGetIndex cube.r0 cube.g0 cube.b0)
  | .green =>
    -moment (wuGetIndex cube.r1 cube.g0 cube.b1) + moment (wuGetIndex cube.r1 cube.g0 cube.b0) +
      moment (wuGetIndex cube.r0 cube.g0 cube.b1) - moment (wuGetIndex cube.r0 cube.g0 cube.b0)
  | .blue =>
    -moment (wuGetIndex cube.r1 cube.g1 cube.b0) + moment (wuGetIndex cube.r1 cube.g0 cube.b0) +
      moment (wuGetIndex cube.r0 cube.g1 cube.b0) - moment (wuGetIndex cube.r0 cube.g0 cube.b0)

/-- `top` from quantizer_wu.ts. -/
def wuTop (cube : Box) (direction : WuDirection) (position : ℕ) (moment : ℕ → ℤ) : ℤ :=
  match direction with
  | .red =>
    moment (wuGetIndex position cube.g1 cube.b1) - moment (wuGetIndex position cube.g1 cube.b0) -
      moment (wuGetIndex position cube.g0 cube.b1) + moment (wuGetIndex position cube.g0 cube.b0)
  | .green =>
    moment (wuGetIndex cube.r1 position cube.b1) - moment (wuGetIndex cube.r1 position cube.b0) -
      moment (wuGetIndex cube.r0 position cube.b1) + moment (wuGetIndex cube.r0 position cube.b0)
  | .blue =>
    moment (wuGetIndex cube.r1 cube.g1 position) - moment (wuGetIndex cube.r1 cube.g0 position) -
      moment (wuGetIndex cube.r0 cube.g1 position) + moment (wuGetIndex cube.r0 cube.g0 position)

/-- `variance` from quantizer_wu.ts. -/
def wuVariance (m : WuMoments) (cube : Box) : ℝ :=
  let dr := wuVolume cube m.momentsR
  let dg := wuVolume cube m.momentsG
  let db := wuVolume cube m.momentsB
  let xx := m.moments (wuGetIndex cube.r1 cube.g1 cube.b1) -
    m.moments (wuGetIndex cube.r1 cube.g1 cube.b0) -
    m.moments (wuGetIndex cube.r1 cube.g0 cube.b1) +
    m.moments (wuGetIndex cube.r1 cube.g0 cube.b0) -
    m.moments (wuGetIndex cube.r0 cube.g1 cube.b1) +
    m.moments (wuGetIndex cube.r0 cube.g1 cube.b0) +
    m.moments (wuGetIndex cube.r0 cube.g0 cube.b1) -
    m.moments (wuGetIndex cube.r0 cube.g0 cube.b0)
  let hypotenuse : ℤ := dr * dr + dg * dg + db * db
  let volume := wuVolume cube m.weights
  (xx : ℝ) - (hypotenuse : ℝ) / (volume : ℝ)

/-- `maximize` from quantizer_wu.ts: scan cut positions
`first <= i < last`, returning `(cutLocation, maximum)`. -/
def wuMaximize (m : WuMoments) (cube : Box) (direction : WuDirection) (first last : ℕ)
    (wholeR wholeG wholeB wholeW : ℤ) : ℤ × ℝ :=
  let bottomR := wuBottom cube direction m.momentsR
  let bottomG := wuBottom cube direction m.momentsG
  let bottomB := wuBottom cube direction m.momentsB
  let bottomW := wuBottom cube direction m.weights
  (List.range' first (last - first)).foldl
    (fun st i =>
      match st with
      | (cut, maxVal) =>
        let halfR := bottomR + wuTop cube direction i m.momentsR
        let halfG := bottomG + wuTop cube direction i m.momentsG
        let halfB := bottomB + wuTop cube direction i m.momentsB
        let halfW := bottomW + wuTop cube direction i m.weights
        if halfW = 0 then (cut, maxVal)
        else
          let temp1 : ℝ := ((halfR * halfR + halfG * halfG + halfB * halfB : ℤ) : ℝ) /
            ((halfW : ℤ) : ℝ)
          let halfR2 := wholeR - halfR
          let halfG2 := wholeG - halfG
          let halfB2 := wholeB - halfB
          let halfW2 := wholeW - halfW
          if halfW2 = 0 then (cut, maxVal)
          else
            let temp := temp1 +
              ((halfR2 * halfR2 + halfG2 * halfG2 + halfB2 * halfB2 : ℤ) : ℝ) /
                ((halfW2 : ℤ) : ℝ)
            if temp > maxVal then ((i : ℤ), temp) else (cut, maxVal))
    (-1, 0)

/-- `cut` from quantizer_wu.ts: returns the updated pair of boxes, or
`none` when no valid red cut location exists (the source's `false`).
Only the red branch can see a negative cut location: the green and blue
branches are reached only with a strictly positive maximum, which forces
a non-negative cut, so the `toNat` casts below never truncate. -/
def wuCut (m : WuMoments) (one : Box) : Option (Box × Box) :=
  let wholeR := wuVolume one m.momentsR
  let wholeG := wuVolume one m.momentsG
  let wholeB := wuVolume one m.momentsB
  let wholeW := wuVolume one m.weights
  let maxRResult := wuMaximize m one .red (one.r0 + 1) one.r1 wholeR wholeG wholeB wholeW
  let maxGResult := wuMaximize m one .green (one.g0 + 1) one.g1 wholeR wholeG wholeB wholeW
  let maxBResult := wuMaximize m one .blue (one.b0 + 1) one.b1 wholeR wholeG wholeB wholeW
  let maxR := maxRResult.2
  let maxG := maxGResult.2
  let maxB := maxBResult.2
  let cutBoxes :=
    if maxR ≥ maxG ∧ maxR ≥ maxB then
      if maxRResult.1 < 0 then none
      else
        let one' := { one with r1 := maxRResult.1.toNat }
        some (one', { one with r0 := one'.r1, g0 := one.g0, b0 := one.b0 })
    else if maxG ≥ maxR ∧ maxG ≥ maxB then
      let one' := { one with g1 := maxGResult.1.toNat }
      some (one', { one with g0 := one'.g1, r0 := one.r0, b0 := one.b0 })
    else
      let one' := { one with b1 := maxBResult.1.toNat }
      some (one', { one with b0 := one'.b1, r0 := one.r0, g0 := one.g0 })
  match cutBoxes with
  | none => none
  | some (one', two') =>
    some
      ({ one' with vol := ((one'.r1 : ℤ) - one'.r0) * ((one'.g1 : ℤ) - one'.g0) *
          ((one'.b1 : ℤ) - one'.b0) },
       { two' with vol := ((two'.r1 : ℤ) - two'.r0) * ((two'.g1 : ℤ) - two'.g0) *
          ((two'.b1 : ℤ) - two'.b0) })

/-- The `next = argmax of volumeVariance[0..upTo]` scan at the end of each
`createBoxes` iteration; returns `(next, temp)`. -/
def wuArgmax (vv : ℕ → ℝ) (upTo : ℕ) : ℕ × ℝ :=
  (List.range' 1 upTo).foldl
    (fun st j => if vv j > st.2 then (j, vv j) else st)
    (0, vv 0)

/-- The `for (i = 1; i < maxColors; i++)` loop of `createBoxes`.  Each
pass either fills slot `i` (successful cut) or zeroes the failed box's
recorded variance and retries the same slot with the next-best box, so
`2 * maxColors + 1` rounds of fuel always suffice. -/
def wuCreateBoxesGo (m : WuMoments) (maxColors : ℕ) :
    ℕ → ℕ → ℕ → List Box → (ℕ → ℝ) → List Box × ℕ
  | 0, _, _, cubes, _ => (cubes, maxColors)
  | (fuel + 1), i, next, cubes, volumeVariance =>
    if i < maxColors then
      match wuCut m (cubes.getD next default) with
      | some (one, two) =>
        let cubes' := (cubes.set next one).set i two
        let vv' : ℕ → ℝ := fun j =>
          if j = next then (if one.vol > 1 then wuVariance m one else 0)
          else if j = i then (if two.vol > 1 then wuVariance m two else 0)
          else volumeVariance j
        let scan := wuArgmax vv' i
        if scan.2 ≤ 0 then (cubes', i + 1)
        else wuCreateBoxesGo m maxColors fuel (i + 1) scan.1 cubes' vv'
      | none =>
        let vv' : ℕ → ℝ := fun j => if j = next then 0 else volumeVariance j
        let scan := wuArgmax vv' (i - 1)
        if scan.2 ≤ 0 then (cubes, i)
        else wuCreateBoxesGo m maxColors fuel i scan.1 cubes vv'
    else (cubes, maxColors)

/-- `createBoxes` from quantizer_wu.ts: `maxColors` default boxes with
`cubes[0]` set to the full `[0,32]^3` cube, then the splitting loop. -/
def wuCreateBoxes (m : WuMoments) (maxColors : ℕ) : List Box × ℕ :=
  let cubes : List Box := ⟨0, 32, 0, 32, 0, 32, 0⟩ :: List.replicate (maxColors - 1) default
  wuCreateBoxesGo m maxColors (2 * maxColors + 1) 1 0 cubes (fun _ => 0)

/-- `createResult` from quantizer_wu.ts. -/
def wuCreateResult (m : WuMoments) (cubes : List Box) (colorCount : ℕ) : List ℕ :=
  (List.range colorCount).foldl
    (fun colors i =>
      let cube := cubes.getD i default
      let weight := wuVolume cube m.weights
      if weight > 0 then
        let r := (jsRound ((wuVolume cube m.momentsR : ℝ) / (weight : ℝ))).toNat
        let g := (jsRound ((wuVolume cube m.momentsG : ℝ) / (weight : ℝ))).toNat
        let b := (jsRound ((wuVolume cube m.momentsB : ℝ) / (weight : ℝ))).toNat
        colors ++ [255 <<< 24 ||| ((r &&& 255) <<< 16) ||| ((g &&& 255) <<< 8) ||| (b &&& 255)]
      else colors)
    []

/-- The part of `QuantizerWu.quantize` downstream of the histogram. -/
def wuQuantizeHist (countByColor : List (ℕ × ℕ)) (maxColors : ℕ) : List ℕ :=
  let m := wuComputeMoments (wuConstructHistogram countByColor)
  let boxesResult := wuCreateBoxes m maxColors
  wuCreateResult m boxesResult.1 boxesResult.2

/-- `QuantizerWu.quantize` from quantizer_wu.ts: the pixel array enters
the computation only through `QuantizerMap.quantize`. -/
def wuQuantize (pixels : List ℕ) (maxColors : ℕ) : List ℕ :=
  wuQuantizeHist (quantizerMapQuantize pixels) maxColors

/-! ## src/quantize/lab_point_provider.ts and quantizer_wsmeans.ts -/

/-- `LabPointProvider.distance` from lab_point_provider.ts (squared
euclidean distance in Lab, no square root). -/
def labDistance (p q : ℝ × ℝ × ℝ) : ℝ :=
  (p.1 - q.1) * (p.1 - q.1) + (p.2.1 - q.2.1) * (p.2.1 - q.2.1) +
    (p.2.2 - q.2.2) * (p.2.2 - q.2.2)

/-- `LabPointProvider.toInt` from lab_point_provider.ts. -/
def labToInt (p : ℝ × ℝ × ℝ) : ℕ :=
  argbFromLab p.1 p.2.1 p.2.2

/-- The deduplication pass at the top of `QuantizerWsmeans.quantize`:
builds `(pixelToCount, points, pixels)` in first-seen order. -/
def wsDedup (inputPixels : List ℕ) : List (ℕ × ℕ) × List (ℝ × ℝ × ℝ) × List ℕ :=
  inputPixels.foldl
    (fun st inputPixel =>
      match st with
      | (pixelToCount, points, pixels) =>
        match lookupCache pixelToCount inputPixel with
        | none =>
          (pixelToCount ++ [(inputPixel, 1)], points ++ [labFromArgb inputPixel],
            pixels ++ [inputPixel])
        | some _ => (countMapIncr pixelToCount inputPixel, points, pixels))
    ([], [], [])

/-- The random cluster seeds used when `startingClusters` is empty
(`Math.random()` is the explicit stream `rand`; seed `i` consumes stream
entries `3i, 3i+1, 3i+2`). -/
def wsRandomClusters (rand : ℕ → ℝ) (needed : ℕ) : List (ℝ × ℝ × ℝ) :=
  (List.range needed).map
    (fun i => (rand (3 * i) * 100, rand (3 * i + 1) * 201 + -100, rand (3 * i + 2) * 201 + -100))

/-- The `distanceToIndexMatrix[i][j].distance` entries of
`QuantizerWsmeans.quantize`.  The diagonal keeps the `DistanceAndIndex`
default `-1`; every off-diagonal pair `(i, j)` with `i ≠ j` below
`clusterCount` is written with the inter-cluster distance.  The source's
comparator-less `Array.prototype.sort()` compares the string form of the
objects, which is `"[object Object]"` for all of them, so the stable sort
leaves each row unchanged (and `indexMatrix` is written but never read). -/
def wsDistMatrix (clusters : List (ℝ × ℝ × ℝ)) (i j : ℕ) : ℝ :=
  if i = j then -1
  else labDistance (clusters.getD i (0, 0, 0)) (clusters.getD j (0, 0, 0))

/-- The per-point reassignment step of the k-means iteration: returns the
(possibly new) cluster index and whether the point moved.  The inner scan
skips cluster `j` when the precomputed inter-cluster distance is at least
`4 *` the point's current distance, and a candidate only wins if closer;
a move also requires the distance change to exceed
`MIN_MOVEMENT_DISTANCE = 3`. -/
def wsAssignPoint (clusters : List (ℝ × ℝ × ℝ)) (clusterCount : ℕ) (point : ℝ × ℝ × ℝ)
    (previousClusterIndex : ℕ) : ℕ × Bool :=
  let previousCluster := clusters.getD previousClusterIndex (0, 0, 0)
  let previousDistance := labDistance point previousCluster
  let scan := (List.range clusterCount).foldl
    (fun st j =>
      match st with
      | (minimumDistance, newClusterIndex) =>
        if wsDistMatrix clusters previousClusterIndex j ≥ 4 * previousDistance then
          (minimumDistance, newClusterIndex)
        else
          let distance := labDistance point (clusters.getD j (0, 0, 0))
          if distance < minimumDistance then (distance, (j : ℤ))
          else (minimumDistance, newClusterIndex))
    (previousDistance, (-1 : ℤ))
  if scan.2 ≠ -1 then
    let distanceChange := |Real.sqrt scan.1 - Real.sqrt previousDistance|
    if distanceChange > 3 then (scan.2.toNat, true) else (previousClusterIndex, false)
  else (previousClusterIndex, false)

/-- The `for (i = 0; i < pointCount; i++)` reassignment loop; returns the
updated `clusterIndices` and `pointsMoved`. -/
def wsReassign (clusters : List (ℝ × ℝ × ℝ)) (clusterCount : ℕ) (points : List (ℝ × ℝ × ℝ))
    (clusterIndices : List ℕ) : List ℕ × ℕ :=
  (List.range points.length).foldl
    (fun st i =>
      match st with
      | (indices, moved) =>
        let res := wsAssignPoint clusters clusterCount (points.getD i (0, 0, 0))
          (indices.getD i 0)
        if res.2 then (indices.set i res.1, moved + 1) else (indices, moved))
    (clusterIndices, 0)

/-- The component/count accumulation pass of the k-means iteration:
`(pixelCountSums, componentASums, componentBSums, componentCSums)`. -/
def wsAccumulate (points : List (ℝ × ℝ × ℝ)) (counts clusterIndices : List ℕ) :
    (ℕ → ℕ) × (ℕ → ℝ) × (ℕ → ℝ) × (ℕ → ℝ) :=
  (List.range points.length).foldl
    (fun st i =>
      match st with
      | (pcs, sa, sb, sc) =>
        let clusterIndex := clusterIndices.getD i 0
        let point := points.getD i (0, 0, 0)
        let count := counts.getD i 0
        (fun j => if j = clusterIndex then pcs j + count else pcs j,
         fun j => if j = clusterIndex then sa j + point.1 * count else sa j,
         fun j => if j = clusterIndex then sb j + point.2.1 * count else sb j,
         fun j => if j = clusterIndex then sc j + point.2.2 * count else sc j))
    (fun _ => 0, fun _ => 0, fun _ => 0, fun _ => 0)

/-- The centroid update at the end of a k-means iteration: clusters with
no assigned weight become `(0,0,0)`, others the weighted mean. -/
def wsUpdateClusters (clusters : List (ℝ × ℝ × ℝ)) (clusterCount : ℕ) (pcs : ℕ → ℕ)
    (sa sb sc : ℕ → ℝ) : List (ℝ × ℝ × ℝ) :=
  (List.range clusterCount).foldl
    (fun cls i =>
      let count := pcs i
      if count = 0 then cls.set i (0, 0, 0)
      else cls.set i (sa i / count, sb i / count, sc i / count))
    clusters

/-- The `MAX_ITERATIONS = 10` loop of `QuantizerWsmeans.quantize`.  The
state is `(clusters, clusterIndices, pixelCountSums)`; the source breaks
after reassignment (before the sums) when no point moved and
`iteration !== 0`, keeping the previous iteration's `pixelCountSums`. -/
def wsIterate (points : List (ℝ × ℝ × ℝ)) (counts : List ℕ) (clusterCount : ℕ) :
    ℕ → ℕ → List (ℝ × ℝ × ℝ) × List ℕ × (ℕ → ℕ) → List (ℝ × ℝ × ℝ) × List ℕ × (ℕ → ℕ)
  | 0, _, st => st
  | (fuel + 1), iteration, st =>
    match st with
    | (clusters, clusterIndices, pixelCountSums) =>
      let re := wsReassign clusters clusterCount points clusterIndices
      if re.2 = 0 ∧ iteration ≠ 0 then (clusters, re.1, pixelCountSums)
      else
        let acc := wsAccumulate points counts re.1
        let clusters' := wsUpdateClusters clusters clusterCount acc.1 acc.2.1 acc.2.2.1 acc.2.2.2
        wsIterate points counts clusterCount fuel (iteration + 1) (clusters', re.1, acc.1)

/-- The final `argbToPopulation` construction of
`QuantizerWsmeans.quantize`. -/
def wsFinalResult (clusters : List (ℝ × ℝ × ℝ)) (clusterCount : ℕ) (pcs : ℕ → ℕ) :
    List (ℕ × ℕ) :=
  (List.range clusterCount).foldl
    (fun argbToPopulation i =>
      let count := pcs i
      if count = 0 then argbToPopulation
      else
        let possibleNewCluster := labToInt (clusters.getD i (0, 0, 0))
        match lookupCache argbToPopulation possibleNewCluster with
        | some _ => argbToPopulation
        | none => argbToPopulation ++ [(possibleNewCluster, count)])
    []

/-- `QuantizerWsmeans.quantize` from quantizer_wsmeans.ts.  Note that the
input pixels are consumed as given: there is no alpha filtering here.
`rand` is the `Math.random()` stream: cluster seeding (only taken when
`startingClusters` is empty) consumes the first `3 * needed` entries, the
initial random cluster assignment consumes one entry per distinct pixel. -/
def wsmeansQuantize (inputPixels startingClusters : List ℕ) (maxColors : ℕ)
    (rand : ℕ → ℝ) : List (ℕ × ℕ) :=
  let dedup := wsDedup inputPixels
  let pixelToCount := dedup.1
  let points := dedup.2.1
  let pixels := dedup.2.2
  let pointCount := points.length
  let counts := pixels.map (fun px => (lookupCache pixelToCount px).getD 0)
  let clusterCount0 := min maxColors pointCount
  let clusterCount :=
    if 0 < startingClusters.length then min clusterCount0 startingClusters.length
    else clusterCount0
  let clusters0 := startingClusters.map labFromArgb
  let additionalClustersNeeded : ℤ := (clusterCount : ℤ) - clusters0.length
  let seeding := startingClusters.length = 0 ∧ additionalClustersNeeded > 0
  let clusters :=
    if seeding then clusters0 ++ wsRandomClusters rand additionalClustersNeeded.toNat
    else clusters0
  let randBase := if seeding then 3 * additionalClustersNeeded.toNat else 0
  let clusterIndices := (List.range pointCount).map
    (fun i => (⌊rand (randBase + i) * (clusterCount : ℝ)⌋).toNat)
  let st := wsIterate points counts clusterCount 10 0 (clusters, clusterIndices, fun _ => 0)
  wsFinalResult st.1 clusterCount st.2.2

/-! ## src/quantize/quantizer_celebi.ts -/

/-- `QuantizerCelebi.quantize` from quantizer_celebi.ts: Wu first, then
Wsmeans seeded with Wu's result — but fed the raw pixel array. -/
def celebiQuantize (pixels : List ℕ) (maxColors : ℕ) (rand : ℕ → ℝ) : List (ℕ × ℕ) :=
  wsmeansQuantize pixels (wuQuantize pixels maxColors) maxColors rand


/-- A cache is valid for `resolve` when every entry stores `resolve` of
its key — the only way `getHctCached` ever creates entries. -/
def ValidCache {κ α : Type} [DecidableEq κ] (resolve : κ → α) (cache : List (κ × α)) : Prop :=
  ∀ k v, lookupCache cache k = some v → v = resolve k

/-- A minimal concrete tonal palette (hue 0, chroma 0) for building
concrete schemes and roles. -/
def grayPalette : TonalPalette :=
  ⟨0, 0, Hct.fromInt 0xff000000⟩

/-- A concrete 2025-spec light scheme at contrast level 0. -/
def scheme2025Example : DynamicScheme :=
  { sourceColorArgb := 0xff000000
    variant := Variant.tonalSpot
    contrastLevel := 0
    isDark := false
    platform := Platform.phone
    specVersion := SpecVersion.spec2025
    sourceColorHct := Hct.fromInt 0xff000000
    primaryPalette := grayPalette
    secondaryPalette := grayPalette
    tertiaryPalette := grayPalette
    neutralPalette := grayPalette
    neutralVariantPalette := grayPalette
    errorPalette := grayPalette }

/-- A background role whose raw tone is 55, with no background, contrast
curve, second background or tone-delta pair (a legal 2025-spec
construction: 2025 background roles may omit the contrast curve). -/
def surfaceExampleColor : DynamicColor :=
  .mk "surface_example" (fun _ => grayPalette) (fun _ => 55) true none none none none none

/-- A trivial palette delegate (every palette is the gray palette). -/
def trivialPaletteDelegate : PaletteDelegate :=
  ⟨fun _ _ _ _ _ => grayPalette, fun _ _ _ _ _ => grayPalette, fun _ _ _ _ _ => grayPalette,
   fun _ _ _ _ _ => grayPalette, fun _ _ _ _ _ => grayPalette, fun _ _ _ _ _ => none⟩

/-- Concrete constructor options for the witness schemes. -/
def exampleOptions : DynamicSchemeOptions :=
  { sourceColorHct := Hct.fromInt 0xff6750a4
    isDark := false
    contrastLevel := 0
    variant := Variant.tonalSpot
    specVersion := SpecVersion.spec2021
    platform := Platform.phone
    primaryPalette := none
    secondaryPalette := none
    tertiaryPalette := none
    neutralPalette := none
    neutralVariantPalette := none
    errorPalette := none }

/-- A plain foreground role with raw tone 10 (used as a background
reference below). -/
def bgExampleColor : DynamicColor :=
  .mk "on_surface_bg" (fun _ => grayPalette) (fun _ => 10) false none none none none none

/-- A 2025-style background role with raw tone 55, a background and a
constant contrast curve, and no second background. -/
def bucketedExampleColor : DynamicColor :=
  .mk "surface_bucketed" (fun _ => grayPalette) (fun _ => 55) true none
    (some (fun _ => some bgExampleColor)) none (some (fun _ => some ⟨3, 3, 3, 3⟩)) none

/-- The exact set of inputs on which `Contrast.lighter` returns the `-1`
sentinel, spelled from the source's own expressions: invalid tone, an
undershoot beyond the 0.04 tolerance, or the `+0.4`-adjusted result tone
falling outside `[0, 100]`. -/
def lighterFails (tone ratio : ℝ) : Prop :=
  tone < 0 ∨ tone > 100 ∨
    (Contrast.ratioOfYs (ratio * (yFromLstar tone + 5) - 5) (yFromLstar tone) < ratio ∧
      |Contrast.ratioOfYs (ratio * (yFromLstar tone + 5) - 5) (yFromLstar tone) - ratio| >
        0.04) ∨
    lstarFromY (ratio * (yFromLstar tone + 5) - 5) + 0.4 < 0 ∨
    lstarFromY (ratio * (yFromLstar tone + 5) - 5) + 0.4 > 100

/-- The exact set of inputs on which `Contrast.darker` returns the `-1`
sentinel (same three sources as `lighterFails`, with the darker-side
formulas). -/
def darkerFails (tone ratio : ℝ) : Prop :=
  tone < 0 ∨ tone > 100 ∨
    (Contrast.ratioOfYs (yFromLstar tone) ((yFromLstar tone + 5) / ratio - 5) < ratio ∧
      |Contrast.ratioOfYs (yFromLstar tone) ((yFromLstar tone + 5) / ratio - 5) - ratio| >
        0.04) ∨
    lstarFromY ((yFromLstar tone + 5) / ratio - 5) - 0.4 < 0 ∨
    lstarFromY ((yFromLstar tone + 5) / ratio - 5) - 0.4 > 100

/-! ## Theorems -/

/-- Claim C1: for every representable ARGB integer (32-bit packed color),
`Hct.fromInt(argb).toInt() === argb` holds exactly — the `Hct`
constructor stores the ARGB integer unchanged and `toInt` returns that
stored field. -/
theorem hct_fromInt_toInt_roundtrip (argb : ℕ) (h : argb < 2 ^ 32) :
    (Hct.fromInt argb).toInt = argb := rfl

/-- Witness for C1 at the Material source purple `0xff6750a4`. -/
theorem hct_fromInt_toInt_roundtrip_witness :
    0xff6750a4 < 2 ^ 32 ∧ (Hct.fromInt 0xff6750a4).toInt = 0xff6750a4 :=
  ⟨by norm_num, hct_fromInt_toInt_roundtrip 0xff6750a4 (by norm_num)⟩

/-- Claim C2: whenever `chroma < 1e-4`, or `tone < 1e-4`, or
`tone > 99.9999`, `HctSolver.solveToInt(hue, chroma, tone)` returns
exactly `argbFromLstar(tone)` for every hue — the degenerate
short-circuit fires before either solver tier (`findResultByJ` /
`bisectToLimit`) is entered. -/
theorem solveToInt_degenerate_short_circuit (hueDegrees chroma lstar : ℝ)
    (h : chroma < 1e-4 ∨ lstar < 1e-4 ∨ lstar > 99.9999) :
    solveToInt hueDegrees chroma lstar = argbFromLstar lstar := by
  unfold solveToInt
  rw [if_pos h]

/-- Witness for C2 at `(hue, chroma, tone) = (217, 0, 50)`. -/
theorem solveToInt_degenerate_short_circuit_witness :
    ((0 : ℝ) < 1e-4 ∨ (50 : ℝ) < 1e-4 ∨ (50 : ℝ) > 99.9999) ∧
      solveToInt 217 0 50 = argbFromLstar 50 :=
  ⟨Or.inl (by norm_num),
    solveToInt_degenerate_short_circuit 217 0 50 (Or.inl (by norm_num))⟩

/-- Claim C6: a `TonalPalette` with a yellow-family hue
(`105 ≤ hue < 125`) maps tone 99 to the channel-wise rounded average of
`tone(98)` and `tone(100)` instead of the directly solved
`Hct.from(hue, chroma, 99).toInt()`; every other `(hue, tone)`
combination is solved directly. -/
theorem tonalPalette_tone99_yellow_average (p : TonalPalette) (t : ℝ) :
    (Hct.isYellow p.hue →
      p.tone 99 =
        TonalPalette.averageArgb (Hct.from' p.hue p.chroma 98).toInt
          (Hct.from' p.hue p.chroma 100).toInt) ∧
    (¬(t = 99 ∧ Hct.isYellow p.hue) → p.tone t = (Hct.from' p.hue p.chroma t).toInt) := by
  constructor
  · intro hy
    unfold TonalPalette.tone
    rw [if_pos ⟨rfl, hy⟩]
    rfl
  · intro hn
    unfold TonalPalette.tone
    rw [if_neg hn]
    rfl

/-- Witness for C6: the yellow branch at hue 110 and the direct branch at
tone 50. -/
theorem tonalPalette_tone99_yellow_average_witness :
    (TonalPalette.mk 110 40 (Hct.fromInt 0xff000000)).tone 99 =
      TonalPalette.averageArgb (Hct.from' 110 40 98).toInt (Hct.from' 110 40 100).toInt ∧
    (TonalPalette.mk 110 40 (Hct.fromInt 0xff000000)).tone 50 =
      (Hct.from' 110 40 50).toInt :=
  ⟨(tonalPalette_tone99_yellow_average ⟨110, 40, Hct.fromInt 0xff000000⟩ 99).1
      ⟨by norm_num, by norm_num⟩,
    (tonalPalette_tone99_yellow_average ⟨110, 40, Hct.fromInt 0xff000000⟩ 50).2
      (by
        rintro ⟨h50, _⟩
        norm_num at h50)⟩

/-- Claim C8 counterexample: at `angle = -9 * pi` (magnitude above the
`8 * pi` offset), `sanitizeRadians` returns `-pi`, which is not in
`[0, 2 * pi)`: the JS `%` keeps the sign of its dividend, and the
`+ 8 * pi` offset is not enough for this angle. -/
theorem sanitizeRadians_not_coterminal_counterexample :
    ¬(0 ≤ sanitizeRadians (-9 * π) ∧ sanitizeRadians (-9 * π) < 2 * π) := by
  have hval : sanitizeRadians (-9 * π) = -π := by
    unfold sanitizeRadians jsMod jsTrunc
    have h1 : -9 * π + π * 8 = -π := by ring
    rw [h1]
    have hne : (π * 2 : ℝ) ≠ 0 := by positivity
    have h2 : -π / (π * 2) = -(1 / 2) := by
      rw [div_eq_iff hne]
      ring
    rw [h2]
    have h3 : ¬((0 : ℝ) ≤ -(1 / 2)) := by norm_num
    rw [if_neg h3]
    have h4 : ⌈(-(1 / 2) : ℝ)⌉ = 0 := by
      rw [Int.ceil_eq_zero_iff]
      constructor <;> norm_num
    rw [h4]
    push_cast
    ring
  rw [hval]
  intro hc
  have hp := Real.pi_pos
  linarith [hc.1]

/-- Claim C8 amended: `sanitizeRadians(angle)` returns a coterminal angle
in `[0, 2 * pi)` for every angle at least `-8 * pi` (the source comment
itself restricts the input: "must not deviate too much from 0"); for
angles below `-8 * pi` the result can be negative (see the
counterexample). -/
theorem sanitizeRadians_bounds (angle : ℝ) (h : -(8 * π) ≤ angle) :
    0 ≤ sanitizeRadians angle ∧ sanitizeRadians angle < 2 * π := by
  have hb : (0 : ℝ) < π * 2 := by positivity
  have ha : 0 ≤ angle + π * 8 := by linarith
  unfold sanitizeRadians jsMod jsTrunc
  have hq : 0 ≤ (angle + π * 8) / (π * 2) := div_nonneg ha hb.le
  rw [if_pos hq]
  set x := (angle + π * 8) / (π * 2) with hx
  have hxval : angle + π * 8 = x * (π * 2) := by
    rw [hx]
    field_simp
  have hfl : (⌊x⌋ : ℝ) ≤ x := Int.floor_le x
  have hfu : x < ⌊x⌋ + 1 := Int.lt_floor_add_one x
  constructor
  · nlinarith [mul_nonneg hb.le (sub_nonneg.mpr hfl)]
  · nlinarith [mul_pos hb (sub_pos.mpr (lt_of_le_of_lt hfl hfu))]

/-- Witness for the amended C8 at `angle = 0`. -/
theorem sanitizeRadians_bounds_witness :
    -(8 * π) ≤ (0 : ℝ) ∧ (0 ≤ sanitizeRadians 0 ∧ sanitizeRadians 0 < 2 * π) :=
  ⟨by nlinarith [Real.pi_pos], sanitizeRadians_bounds 0 (by nlinarith [Real.pi_pos])⟩

/-- Claim C7 counterexample: five `getHct` misses with five distinct
schemes leave five entries in the `hctCache` — more than the claimed
four.  The `size > 4` check runs before the insertion, so the map grows
to five entries before any clearing happens. -/
theorem hctCache_five_entries_counterexample :
    4 < (([0, 1, 2, 3, 4] : List ℕ).foldl
      (fun c k => (getHctCached (fun n => n) c k).2) []).length := by
  decide

/-- Claim C7 amended: the per-color Hct cache never holds more than five
entries: a miss inserts after clearing the map wholesale whenever it
already holds more than four entries (so the cache peaks at five, and a
miss at five empties it down to the single fresh entry). -/
theorem hctCache_bounded {κ α : Type} [DecidableEq κ] (resolve : κ → α)
    (cache : List (κ × α)) (scheme : κ) (h : cache.length ≤ 5) :
    (getHctCached resolve cache scheme).2.length ≤ 5 ∧
      (lookupCache cache scheme = none → 4 < cache.length →
        (getHctCached resolve cache scheme).2 = [(scheme, resolve scheme)]) := by
  constructor
  · unfold getHctCached
    cases hl : lookupCache cache scheme with
    | some v => simpa using h
    | none =>
      by_cases h4 : 4 < cache.length
      · simp [h4]
      · simp [h4]
        omega
  · intro hnone h4
    unfold getHctCached
    rw [hnone]
    simp [h4]

/-- Witness for the amended C7: a miss on a full five-entry cache clears
it down to the single fresh entry. -/
theorem hctCache_bounded_witness :
    ([(0, 0), (1, 1), (2, 2), (3, 3), (4, 4)] : List (ℕ × ℕ)).length ≤ 5 ∧
      (getHctCached (fun n => n) [(0, 0), (1, 1), (2, 2), (3, 3), (4, 4)] 9).2 = [(9, 9)] :=
  ⟨by norm_num,
    (hctCache_bounded (fun n => n) [(0, 0), (1, 1), (2, 2), (3, 3), (4, 4)] 9
      (by norm_num)).2 (by decide) (by norm_num)⟩

/-- Lookup distributes over association-list append. -/
theorem lookupCache_append {κ α : Type} [DecidableEq κ] (c d : List (κ × α)) (key : κ) :
    lookupCache (c ++ d) key =
      match lookupCache c key with
      | some v => some v
      | none => lookupCache d key := by
  induction c with
  | nil => simp [lookupCache]
  | cons a rest ih =>
    obtain ⟨k0, v0⟩ := a
    by_cases h : k0 = key
    · simp [lookupCache, h]
    · simp [lookupCache, h, ih]

/-- Inserting the resolved value for a key preserves cache validity. -/
theorem validCache_append {κ α : Type} [DecidableEq κ] (resolve : κ → α)
    (c : List (κ × α)) (k : κ) (h : ValidCache resolve c) :
    ValidCache resolve (c ++ [(k, resolve k)]) := by
  intro k' v' hl
  rw [lookupCache_append] at hl
  cases hc : lookupCache c k' with
  | some w =>
    rw [hc] at hl
    simp only [Option.some.injEq] at hl
    subst hl
    exact h k' w hc
  | none =>
    rw [hc] at hl
    by_cases hk : k = k'
    · subst hk
      simp [lookupCache] at hl
      exact hl.symm
    · simp [lookupCache, hk] at hl

/-- Claim C3: color-role resolution is deterministic.  Two
`DynamicScheme`s built with identical constructor arguments give
identical tone and Hct resolutions for every role, and the memoization in
`getHct` never changes the result: on any valid cache the cached lookup
returns exactly the pure resolution `resolve scheme`, validity is
preserved, and re-evaluating the same `(scheme, role)` pair yields the
same answer. -/
theorem role_resolution_deterministic {κ α : Type} [DecidableEq κ]
    (getSpecPalettes : SpecVersion → PaletteDelegate) :
    (∀ o1 o2 : DynamicSchemeOptions, o1 = o2 → ∀ (fuel : ℕ) (role : DynamicColor),
      getTone fuel (mkDynamicScheme getSpecPalettes o1) role =
          getTone fuel (mkDynamicScheme getSpecPalettes o2) role ∧
        delegateGetHct fuel (mkDynamicScheme getSpecPalettes o1) role =
          delegateGetHct fuel (mkDynamicScheme getSpecPalettes o2) role) ∧
    (∀ (resolve : κ → α) (cache : List (κ × α)) (k : κ), ValidCache resolve cache →
      (getHctCached resolve cache k).1 = resolve k ∧
        ValidCache resolve (getHctCached resolve cache k).2 ∧
        (getHctCached resolve (getHctCached resolve cache k).2 k).1 =
          (getHctCached resolve cache k).1) := by
  constructor
  · intro o1 o2 h fuel role
    subst h
    exact ⟨rfl, rfl⟩
  · intro resolve cache k hvalid
    have step : ∀ c : List (κ × α), ValidCache resolve c →
        (getHctCached resolve c k).1 = resolve k ∧
          ValidCache resolve (getHctCached resolve c k).2 := by
      intro c hc
      unfold getHctCached
      cases hl : lookupCache c k with
      | some v =>
        refine ⟨hc k v hl, ?_⟩
        exact hc
      | none =>
        refine ⟨rfl, ?_⟩
        by_cases h4 : 4 < c.length
        · simp only [if_pos h4]
          refine validCache_append resolve [] k ?_
          intro k' v' hl'
          simp [lookupCache] at hl'
        · simp only [if_neg h4]
          exact validCache_append resolve c k hc
    obtain ⟨h1, h2⟩ := step cache hvalid
    refine ⟨h1, h2, ?_⟩
    rw [(step _ h2).1, h1]

/-- Witness for C3, instantiated at the concrete options/delegate and at
an empty concrete cache. -/
theorem role_resolution_deterministic_witness :
    (getTone 1 (mkDynamicScheme (fun _ => trivialPaletteDelegate) exampleOptions)
        surfaceExampleColor =
      getTone 1 (mkDynamicScheme (fun _ => trivialPaletteDelegate) exampleOptions)
        surfaceExampleColor) ∧
      (getHctCached (fun n => n) ([] : List (ℕ × ℕ)) 0).1 = 0 :=
  ⟨((role_resolution_deterministic (κ := ℕ) (α := ℕ)
        (fun _ => trivialPaletteDelegate)).1 exampleOptions exampleOptions rfl 1
      surfaceExampleColor).1,
    ((role_resolution_deterministic (κ := ℕ) (α := ℕ) (fun _ => trivialPaletteDelegate)).2
        (fun n => n) [] 0 (by intro k v hl; simp [lookupCache] at hl)).1⟩

/-- `clampDouble` stays at or above its lower bound. -/
theorem le_clampDouble_min (lo hi x : ℝ) (h : lo ≤ hi) : lo ≤ clampDouble lo hi x := by
  unfold clampDouble
  split_ifs with h1 h2 <;> linarith

/-- `clampDouble` stays at or below its upper bound. -/
theorem clampDouble_le_max (lo hi x : ℝ) (h : lo ≤ hi) : clampDouble lo hi x ≤ hi := by
  unfold clampDouble
  split_ifs with h1 h2 <;> linarith

/-- On `[0, 100]` tone input, `yFromLstar` lands in `[0, 100]`. -/
theorem yFromLstar_mem (l : ℝ) (h0 : 0 ≤ l) (h1 : l ≤ 100) :
    0 ≤ yFromLstar l ∧ yFromLstar l ≤ 100 := by
  unfold yFromLstar labInvf
  dsimp only
  have hft0 : (16 : ℝ) / 116 ≤ (l + 16) / 116 := by
    apply div_le_div_of_nonneg_right _ (by norm_num)
    linarith
  have hft1 : (l + 16) / 116 ≤ 1 := by
    rw [div_le_one (by norm_num)]
    linarith
  set ft := (l + 16) / 116 with hft
  split_ifs with hcase
  · constructor
    · nlinarith
    · nlinarith
  · constructor
    · nlinarith
    · nlinarith

/-- On `[0, 100]` luminance inputs, `ratioOfYs` lands in `[1, 21]`. -/
theorem ratioOfYs_bounds (y1 y2 : ℝ) (h10 : 0 ≤ y1) (h11 : y1 ≤ 100) (h20 : 0 ≤ y2)
    (h21 : y2 ≤ 100) : 1 ≤ Contrast.ratioOfYs y1 y2 ∧ Contrast.ratioOfYs y1 y2 ≤ 21 := by
  unfold Contrast.ratioOfYs
  dsimp only
  by_cases hgt : y1 > y2
  · have hne : ¬(y1 = y2) := ne_of_gt hgt
    rw [if_pos hgt, if_neg hne]
    constructor
    · rw [le_div_iff (by linarith)]
      linarith
    · rw [div_le_iff (by linarith)]
      linarith
  · rw [if_neg hgt, if_pos rfl]
    constructor
    · rw [le_div_iff (by linarith)]
      linarith
    · rw [div_le_iff (by linarith)]
      linarith

/-- Claim C10: for every pair of real tone inputs, including values
outside `[0, 100]` (which are clamped), `Contrast.ratioOfTones` returns a
value in `[1, 21]`. -/
theorem ratioOfTones_in_one_twentyone (a b : ℝ) :
    1 ≤ Contrast.ratioOfTones a b ∧ Contrast.ratioOfTones a b ≤ 21 := by
  unfold Contrast.ratioOfTones
  have ha := yFromLstar_mem (clampDouble 0 100 a) (le_clampDouble_min 0 100 a (by norm_num))
    (clampDouble_le_max 0 100 a (by norm_num))
  have hb := yFromLstar_mem (clampDouble 0 100 b) (le_clampDouble_min 0 100 b (by norm_num))
    (clampDouble_le_max 0 100 b (by norm_num))
  exact ratioOfYs_bounds _ _ ha.1 ha.2 hb.1 hb.2

/-- Claim C5 counterexample: a 2025-spec background role (name not
ending in `_fixed_dim`) with no background/contrast curve resolves to its
raw tone 55, inside the claimed-forbidden band `(49, 65)` — the 2025
delegate only buckets after the contrast-adjustment step, which is
skipped entirely when the role has no background or curve. -/
theorem tone2025_bucketing_counterexample :
    scheme2025Example.specVersion = SpecVersion.spec2025 ∧
      surfaceExampleColor.isBackground = true ∧
      strEndsWith surfaceExampleColor.name "_fixed_dim" = false ∧
      getTone 1 scheme2025Example surfaceExampleColor = 55 ∧
      ¬(getTone 1 scheme2025Example surfaceExampleColor ≤ 49 ∨
        65 ≤ getTone 1 scheme2025Example surfaceExampleColor) := by
  have hval : getTone 1 scheme2025Example surfaceExampleColor = 55 := by
    show getTone (0 + 1) scheme2025Example surfaceExampleColor = 55
    simp only [getTone, scheme2025Example, surfaceExampleColor, DynamicColor.toneDeltaPair,
      DynamicColor.background, DynamicColor.contrastCurve, DynamicColor.tone]
    norm_num
  refine ⟨rfl, rfl, by decide, hval, ?_⟩
  rw [hval]
  intro hc
  rcases hc with h | h <;> norm_num at h

/-- The 2025 bucketing step always lands in `[0, 49]` or `[65, 100]` when
its guard holds. -/
theorem bucket2025_bounds (cond : Prop) [Decidable cond] (t : ℝ) (hc : cond) :
    (if cond then (if t ≥ 57 then clampDouble 65 100 t else clampDouble 0 49 t) else t) ≤ 49 ∨
      65 ≤ (if cond then (if t ≥ 57 then clampDouble 65 100 t else clampDouble 0 49 t) else t) := by
  rw [if_pos hc]
  by_cases h57 : t ≥ 57
  · rw [if_pos h57]
    right
    exact le_clampDouble_min 65 100 t (by norm_num)
  · rw [if_neg h57]
    left
    exact clampDouble_le_max 0 49 t (by norm_num)

/-- Claim C5 amended: under the 2025 delegate a background role (name not
ending `_fixed_dim`) resolves to a tone in `[0, 49] ∪ [65, 100]` in the
cases where the bucketing step is actually reached and kept: whenever the
role has a tone-delta pair, or has a background with a contrast curve and
no second background.  (A background role without background/curve
returns its raw tone unbucketed — see the counterexample — and the
second-background reconciliation can also return unbucketed values.) -/
theorem tone2025_background_bucketing (s : DynamicScheme) (c : DynamicColor) (n : ℕ)
    (hspec : s.specVersion = SpecVersion.spec2025)
    (hbg : c.isBackground = true)
    (hname : strEndsWith c.name "_fixed_dim" = false)
    (hpath :
      (match c.toneDeltaPair with
       | some pairf => pairf s
       | none => none) ≠ none ∨
      ((∃ bgf, c.background = some bgf ∧ ∃ bg, bgf s = some bg) ∧
        (∃ ccf, c.contrastCurve = some ccf ∧ ∃ curve, ccf s = some curve) ∧
        (match c.secondBackground with
         | some sbgf => sbgf s
         | none => none) = none)) :
    getTone (n + 1) s c ≤ 49 ∨ 65 ≤ getTone (n + 1) s c := by
  simp only [getTone]
  rw [if_pos hspec]
  cases hp : (match c.toneDeltaPair with
              | some pairf => pairf s
              | none => none) with
  | some pair =>
    dsimp only
    exact bucket2025_bounds _ _ ⟨hbg, by simp [hname]⟩
  | none =>
    dsimp only
    rcases hpath with hpair | ⟨⟨bgf, hbgf, bg, hbgs⟩, ⟨ccf, hccf, curve, hcs⟩, hsb⟩
    · exact absurd hp hpair
    · rw [hbgf, hccf]
      dsimp only
      rw [hbgs, hcs]
      dsimp only
      cases hsbf : c.secondBackground with
      | none =>
        dsimp only
        exact bucket2025_bounds _ _ ⟨hbg, by simp [hname]⟩
      | some sbgf =>
        split
        · exact bucket2025_bounds _ _ ⟨hbg, by simp [hname]⟩
        · next sbg2 heq =>
            rw [hsbf] at hsb
            simp at hsb
            injection heq with h2
            subst h2
            split
            · exact bucket2025_bounds _ _ ⟨hbg, by simp [hname]⟩
            · next sbg3 heq2 =>
                rw [hsb] at heq2
                cases heq2

/-- Witness for the amended C5: a 2025 background role with a background
and a contrast curve resolves outside the `(49, 65)` band. -/
theorem tone2025_background_bucketing_witness :
    scheme2025Example.specVersion = SpecVersion.spec2025 ∧
      bucketedExampleColor.isBackground = true ∧
      strEndsWith bucketedExampleColor.name "_fixed_dim" = false ∧
      (getTone 2 scheme2025Example bucketedExampleColor ≤ 49 ∨
        65 ≤ getTone 2 scheme2025Example bucketedExampleColor) :=
  ⟨rfl, rfl, by decide,
    tone2025_background_bucketing scheme2025Example bucketedExampleColor 1 rfl rfl (by decide)
      (Or.inr ⟨⟨_, rfl, _, rfl⟩, ⟨_, rfl, _, rfl⟩, rfl⟩)⟩

/-- `Contrast.lighter` only ever returns `-1` or a non-negative tone. -/
theorem lighter_neg_one_or_nonneg (tone ratio : ℝ) :
    Contrast.lighter tone ratio = -1 ∨ 0 ≤ Contrast.lighter tone ratio := by
  unfold Contrast.lighter
  dsimp only
  split_ifs with h1 h2 h3
  · left; rfl
  · left; rfl
  · left; rfl
  · right
    push_neg at h3
    exact h3.1

/-- `Contrast.darker` only ever returns `-1` or a non-negative tone. -/
theorem darker_neg_one_or_nonneg (tone ratio : ℝ) :
    Contrast.darker tone ratio = -1 ∨ 0 ≤ Contrast.darker tone ratio := by
  unfold Contrast.darker
  dsimp only
  split_ifs with h1 h2 h3
  · left; rfl
  · left; rfl
  · left; rfl
  · right
    push_neg at h3
    exact h3.1

/-- Claim C4 counterexample: `Contrast.darker 0 1` returns the `-1`
sentinel although the achieved contrast ratio (the source's
`realContrast`, spelled with the source's own formulas) equals the
requested ratio 1 exactly — an undershoot of 0, within the 0.04
tolerance.  The sentinel here comes from the adjusted return tone
`lstarFromY(darkY) - 0.4 = -0.4` falling below 0, a `-1` source the
claim's "exactly when" omits. -/
theorem contrast_darker_sentinel_counterexample :
    Contrast.darker 0 1 = -1 ∧
      Contrast.ratioOfYs (yFromLstar 0) ((yFromLstar 0 + 5) / 1 - 5) = 1 ∧
      ¬(Contrast.ratioOfYs (yFromLstar 0) ((yFromLstar 0 + 5) / 1 - 5) < 1 ∧
        |Contrast.ratioOfYs (yFromLstar 0) ((yFromLstar 0 + 5) / 1 - 5) - 1| > 0.04) := by
  have hy : yFromLstar 0 = 0 := by
    unfold yFromLstar labInvf
    norm_num
  have hl : lstarFromY 0 = 0 := by
    unfold lstarFromY labF
    norm_num
  have hratio : Contrast.ratioOfYs (yFromLstar 0) ((yFromLstar 0 + 5) / 1 - 5) = 1 := by
    rw [hy]
    unfold Contrast.ratioOfYs
    norm_num
  refine ⟨?_, hratio, ?_⟩
  · unfold Contrast.darker
    dsimp only
    rw [if_neg (by norm_num)]
    rw [hy]
    have hd : ((0 : ℝ) + 5) / 1 - 5 = 0 := by norm_num
    rw [hd]
    have hrc : Contrast.ratioOfYs (0 : ℝ) 0 = 1 := by
      unfold Contrast.ratioOfYs
      norm_num
    rw [hrc]
    rw [if_neg (by norm_num)]
    rw [hl]
    rw [if_pos (by norm_num)]
  · rw [hratio]
    intro hc
    norm_num at hc

/-- Claim C4 amended: `Contrast.lighter`/`Contrast.darker` return the
`-1` sentinel exactly when the tone is outside `[0, 100]`, or the
achieved ratio undershoots the requested ratio by more than the 0.04
tolerance, or the `±0.4`-adjusted result tone falls outside `[0, 100]`;
and the unsafe variants return `100` (resp. `0`) exactly on the sentinel
and the safe value unchanged otherwise. -/
theorem contrast_sentinel_exactly (tone ratio : ℝ) :
    (Contrast.lighter tone ratio = -1 ↔ lighterFails tone ratio) ∧
      (Contrast.darker tone ratio = -1 ↔ darkerFails tone ratio) ∧
      (Contrast.lighter tone ratio = -1 → Contrast.lighterUnsafe tone ratio = 100) ∧
      (Contrast.lighter tone ratio ≠ -1 →
        Contrast.lighterUnsafe tone ratio = Contrast.lighter tone ratio) ∧
      (Contrast.darker tone ratio = -1 → Contrast.darkerUnsafe tone ratio = 0) ∧
      (Contrast.darker tone ratio ≠ -1 →
        Contrast.darkerUnsafe tone ratio = Contrast.darker tone ratio) := by
  refine ⟨?_, ?_, ?_, ?_, ?_, ?_⟩
  · unfold Contrast.lighter lighterFails
    dsimp only
    split_ifs with h1 h2 h3
    · exact ⟨fun _ => by tauto, fun _ => rfl⟩
    · exact ⟨fun _ => by tauto, fun _ => rfl⟩
    · exact ⟨fun _ => by tauto, fun _ => rfl⟩
    · push_neg at h1 h2 h3
      constructor
      · intro he
        linarith [h3.1]
      · intro hd
        rcases hd with h | h | h | h | h
        · linarith [h1.1]
        · linarith [h1.2]
        · linarith [h2 h.1, h.2]
        · linarith [h3.1]
        · linarith [h3.2]
  · unfold Contrast.darker darkerFails
    dsimp only
    split_ifs with h1 h2 h3
    · exact ⟨fun _ => by tauto, fun _ => rfl⟩
    · exact ⟨fun _ => by tauto, fun _ => rfl⟩
    · exact ⟨fun _ => by tauto, fun _ => rfl⟩
    · push_neg at h1 h2 h3
      constructor
      · intro he
        linarith [h3.1]
      · intro hd
        rcases hd with h | h | h | h | h
        · linarith [h1.1]
        · linarith [h1.2]
        · linarith [h2 h.1, h.2]
        · linarith [h3.1]
        · linarith [h3.2]
  · intro h
    unfold Contrast.lighterUnsafe
    dsimp only
    rw [h]
    norm_num
  · intro h
    unfold Contrast.lighterUnsafe
    dsimp only
    rcases lighter_neg_one_or_nonneg tone ratio with he | hge
    · exact absurd he h
    · rw [if_neg (by linarith)]
  · intro h
    unfold Contrast.darkerUnsafe
    dsimp only
    rw [h]
    norm_num
  · intro h
    unfold Contrast.darkerUnsafe
    dsimp only
    rcases darker_neg_one_or_nonneg tone ratio with he | hge
    · exact absurd he h
    · rw [if_neg (by linarith)]

/-- Witness for the amended C4 at `(tone, ratio) = (-5, 1)`: invalid tone
gives the sentinel and the unsafe variant clamps it to 100. -/
theorem contrast_sentinel_exactly_witness :
    Contrast.lighter (-5) 1 = -1 ∧ Contrast.lighterUnsafe (-5) 1 = 100 :=
  have h := contrast_sentinel_exactly (-5) 1
  have h1 : Contrast.lighter (-5) 1 = -1 := h.1.mpr (Or.inl (by norm_num))
  ⟨h1, h.2.2.1 h1⟩

/-- The counting fold of `QuantizerMap.quantize` ignores exactly the
pixels that `isOpaque` rejects, from any starting accumulator. -/
theorem quantizerMap_foldl_filter (pixels : List ℕ) (acc : List (ℕ × ℕ)) :
    pixels.foldl
      (fun countByColor pixel =>
        if alphaFromArgb pixel < 255 then countByColor else countMapIncr countByColor pixel)
      acc =
      (pixels.filter isOpaque).foldl
        (fun countByColor pixel =>
          if alphaFromArgb pixel < 255 then countByColor
          else countMapIncr countByColor pixel)
        acc := by
  induction pixels generalizing acc with
  | nil => rfl
  | cons p rest ih =>
    rw [List.foldl_cons, List.filter_cons]
    by_cases h : alphaFromArgb p < 255
    · have hop : isOpaque p = false := by
        unfold isOpaque
        simp only [decide_eq_false_iff_not, not_le]
        exact h
      rw [if_pos h, hop]
      simp only [Bool.false_eq_true, if_false]
      exact ih acc
    · have hop : isOpaque p = true := by
        unfold isOpaque
        simp only [decide_eq_true_eq, not_lt] at *
        exact h
      rw [if_neg h, hop]
      simp only [if_true]
      rw [List.foldl_cons, if_neg h]
      exact ih (countMapIncr acc p)

/-- With a single cluster, a point can never be reassigned: the only
candidate is its current cluster, which is never strictly closer than
itself. -/
theorem wsAssignPoint_single (clusters : List (ℝ × ℝ × ℝ)) (pt : ℝ × ℝ × ℝ) :
    wsAssignPoint clusters 1 pt 0 = (0, false) := by
  have hnn : 0 ≤ labDistance pt (clusters.getD 0 (0, 0, 0)) := by
    unfold labDistance
    nlinarith [mul_self_nonneg (pt.1 - (clusters.getD 0 (0, 0, 0)).1),
      mul_self_nonneg (pt.2.1 - (clusters.getD 0 (0, 0, 0)).2.1),
      mul_self_nonneg (pt.2.2 - (clusters.getD 0 (0, 0, 0)).2.2)]
  unfold wsAssignPoint wsDistMatrix
  dsimp only
  have hr : List.range 1 = [0] := rfl
  rw [hr, List.foldl_cons, List.foldl_nil]
  dsimp only
  rw [if_pos rfl]
  rw [if_neg (show ¬((-1 : ℝ) ≥ 4 * labDistance pt (clusters.getD 0 (0, 0, 0))) from
    by nlinarith)]
  rw [if_neg (lt_irrefl (labDistance pt (clusters.getD 0 (0, 0, 0))))]
  simp

/-- With a single cluster, the reassignment pass over one point moves
nothing. -/
theorem wsReassign_single (clusters : List (ℝ × ℝ × ℝ)) (pt : ℝ × ℝ × ℝ) :
    wsReassign clusters 1 [pt] [0] = ([0], 0) := by
  unfold wsReassign
  have hr : List.range [pt].length = [0] := rfl
  rw [hr, List.foldl_cons, List.foldl_nil]
  dsimp only [List.getD, List.get?, Option.getD]
  rw [wsAssignPoint_single]
  simp

/-- With one point and one cluster, an iteration at `iteration ≠ 0`
breaks immediately (nothing moved), leaving the state unchanged. -/
theorem wsIterate_stop (pt : ℝ × ℝ × ℝ) (fuel iter : ℕ) (hiter : iter ≠ 0)
    (cl : List (ℝ × ℝ × ℝ)) (z : ℕ → ℕ) :
    wsIterate [pt] [1] 1 (fuel + 1) iter (cl, [0], z) = (cl, [0], z) := by
  simp only [wsIterate]
  rw [wsReassign_single]
  rw [if_pos ⟨rfl, hiter⟩]

/-- With one point and one cluster, iteration 0 never breaks: it runs the
accumulation and centroid update and recurses at iteration 1. -/
theorem wsIterate_step0 (pt : ℝ × ℝ × ℝ) (fuel : ℕ) (cl : List (ℝ × ℝ × ℝ)) (z : ℕ → ℕ) :
    wsIterate [pt] [1] 1 (fuel + 1) 0 (cl, [0], z) =
      wsIterate [pt] [1] 1 fuel 1
        (wsUpdateClusters cl 1 (wsAccumulate [pt] [1] [0]).1 (wsAccumulate [pt] [1] [0]).2.1
            (wsAccumulate [pt] [1] [0]).2.2.1 (wsAccumulate [pt] [1] [0]).2.2.2,
          [0], (wsAccumulate [pt] [1] [0]).1) := by
  simp only [wsIterate]
  rw [wsReassign_single]
  rw [if_neg (by norm_num)]

/-- The k-means loop on a single point with a single cluster stops after
the second iteration with nothing moved: one accumulation/update pass
runs, then the break fires. -/
theorem wsIterate_single (pt : ℝ × ℝ × ℝ) (cl : List (ℝ × ℝ × ℝ)) (z : ℕ → ℕ) :
    wsIterate [pt] [1] 1 10 0 (cl, [0], z) =
      (wsUpdateClusters cl 1 (wsAccumulate [pt] [1] [0]).1 (wsAccumulate [pt] [1] [0]).2.1
          (wsAccumulate [pt] [1] [0]).2.2.1 (wsAccumulate [pt] [1] [0]).2.2.2,
        [0], (wsAccumulate [pt] [1] [0]).1) := by
  rw [show (10 : ℕ) = 9 + 1 from rfl]
  rw [wsIterate_step0]
  rw [show (9 : ℕ) = 8 + 1 from rfl]
  exact wsIterate_stop pt 8 1 (by norm_num) _ _

/-- A final pass over one cluster holding one pixel produces a non-empty
population map. -/
theorem wsFinalResult_single (clusters : List (ℝ × ℝ × ℝ)) (pcs : ℕ → ℕ) (h : pcs 0 = 1) :
    wsFinalResult clusters 1 pcs ≠ [] := by
  unfold wsFinalResult
  have hr : List.range 1 = [0] := rfl
  rw [hr, List.foldl_cons, List.foldl_nil]
  dsimp only
  rw [h]
  simp [lookupCache]

/-- The accumulation pass over one point of count 1 assigned to cluster 0
records one pixel on cluster 0. -/
theorem wsAccumulate_single (pt : ℝ × ℝ × ℝ) : (wsAccumulate [pt] [1] [0]).1 0 = 1 := rfl

/-- Core of the translucent counterexample: with one (deduplicated)
point, one cluster and the zero random stream, Wsmeans produces a
non-empty population map, whatever the initial cluster list holds. -/
theorem wsmeans_core_nonempty (cl : List (ℝ × ℝ × ℝ)) :
    wsFinalResult (wsIterate [labFromArgb 0x80ff0000] [1] 1 10 0 (cl, [0], fun _ => 0)).1 1
      (wsIterate [labFromArgb 0x80ff0000] [1] 1 10 0 (cl, [0], fun _ => 0)).2.2 ≠ [] := by
  rw [wsIterate_single]
  dsimp only
  exact wsFinalResult_single _ _ (wsAccumulate_single (labFromArgb 0x80ff0000))

/-- `QuantizerWsmeans.quantize` on the single translucent pixel
`0x80ff0000` returns a non-empty map for any starting clusters (with the
zero `Math.random()` stream): the translucent pixel is clustered and
counted. -/
theorem wsmeans_translucent_nonempty (W : List ℕ) :
    wsmeansQuantize [0x80ff0000] W 1 (fun _ => 0) ≠ [] := by
  unfold wsmeansQuantize
  simp only [show wsDedup [0x80ff0000] =
      ([(0x80ff0000, 1)], [labFromArgb 0x80ff0000], [0x80ff0000]) from rfl]
  simp only [show List.map (fun px => (lookupCache [(0x80ff0000, 1)] px).getD 0)
      [0x80ff0000] = [1] from rfl]
  simp only [List.length_singleton, min_self]
  rcases W with _ | ⟨w, ws⟩
  · simp only [List.length_nil, lt_self_iff_false, if_false,
      show List.range 1 = [0] from rfl, List.map_cons, List.map_nil,
      Nat.cast_one, zero_mul, Int.floor_zero, Int.toNat_zero]
    exact wsmeans_core_nonempty _
  · simp only [List.length_cons]
    rw [if_pos (Nat.succ_pos ws.length)]
    have hmin : (1 : ℕ) ⊓ (ws.length + 1) = 1 := by omega
    rw [hmin]
    simp only [show List.range 1 = [0] from rfl, List.map_cons, List.map_nil,
      Nat.cast_one, zero_mul, Int.floor_zero, Int.toNat_zero]
    exact wsmeans_core_nonempty _

/-- `QuantizerWsmeans.quantize` on an empty pixel list returns the empty
map (zero points, zero clusters), for any starting clusters. -/
theorem wsmeans_empty (startingClusters : List ℕ) (maxColors : ℕ) (rand : ℕ → ℝ) :
    wsmeansQuantize [] startingClusters maxColors rand = [] := by
  unfold wsmeansQuantize
  simp only [show wsDedup ([] : List ℕ) = ([], [], []) from rfl]
  simp only [List.length_nil, Nat.min_zero, Nat.zero_min, ite_self]
  rfl

/-- Claim C9 counterexample: one translucent pixel changes the output of
`QuantizerCelebi.quantize` — on `[0x80ff0000]` (alpha `0x80`) the result
is non-empty, while on the opaque subsequence (empty) it is empty.  The
Wu stage filters the pixel out, but Celebi hands the raw pixel array to
Wsmeans, which has no alpha filter. -/
theorem quantizer_translucent_counterexample :
    celebiQuantize [0x80ff0000] 1 (fun _ => 0) ≠
      celebiQuantize (List.filter isOpaque [0x80ff0000]) 1 (fun _ => 0) := by
  have hfilter : List.filter isOpaque [0x80ff0000] = [] := by decide
  rw [hfilter]
  unfold celebiQuantize
  rw [wsmeans_empty]
  exact wsmeans_translucent_nonempty _

/-- Claim C9 amended: pixels with alpha below 255 are excluded by
`QuantizerMap.quantize` (its output equals its output on the opaque
subsequence), and therefore by `QuantizerWu.quantize`, which consumes the
pixels only through that map; but `QuantizerWsmeans.quantize` does not
filter by alpha — with identical starting clusters its output on a
translucent pixel differs from its output on the opaque subsequence — so
`QuantizerCelebi.quantize`, which passes the raw pixel array to the
Wsmeans stage, lets translucent pixels influence its result. -/
theorem quantizer_alpha_filtering (pixels : List ℕ) (maxColors : ℕ) :
    quantizerMapQuantize pixels = quantizerMapQuantize (pixels.filter isOpaque) ∧
      wuQuantize pixels maxColors = wuQuantize (pixels.filter isOpaque) maxColors ∧
      wsmeansQuantize [0x80ff0000] (wuQuantize [0x80ff0000] 1) 1 (fun _ => 0) ≠
        wsmeansQuantize (List.filter isOpaque [0x80ff0000]) (wuQuantize [0x80ff0000] 1) 1
          (fun _ => 0) := by
  have h1 : quantizerMapQuantize pixels = quantizerMapQuantize (pixels.filter isOpaque) :=
    quantizerMap_foldl_filter pixels []
  refine ⟨h1, ?_, ?_⟩
  · unfold wuQuantize
    rw [h1]
  · have h2 : List.filter isOpaque [0x80ff0000] = [] := by decide
    rw [h2, wsmeans_empty]
    exact wsmeans_translucent_nonempty _
